import Mathlib

/-!
# File-descriptor subsystem of `kern/syscall/file.c`

A shallow embedding of the per-process descriptor table, the global open-file
table and the system calls `open`, `close`, `read`, `write`, `lseek`, `dup2`.

* C `int`, `off_t`, `size_t` values are mathematical integers; conversions and
  arithmetic that can leave the machine range are wrapped explicitly
  (`to_int`, `to_off_t`, `to_size_t`).
* The two tables are lists; an access outside a list, a dereference of `NULL`
  and a dereference of a pointer already given to `kfree` are reported as a
  `Fault` (the C code has undefined behaviour there).
* The storage layer (`vfs_open`, `vfs_close`, `VOP_*`), the user/kernel copy
  routines and `kmalloc` are external: their outcomes are arguments of each
  call, and every storage-layer call is appended to `vfs_log`.
-/

namespace OsAss2

set_option maxRecDepth 100000

deriving instance DecidableEq for Except

/-! ## Machine integers -/

/-- Conversion of an integer value to the 32-bit C type `int`. -/
def to_int (x : Int) : Int := (x + 2 ^ 31) % 2 ^ 32 - 2 ^ 31

/-- Conversion of an integer value to the signed 64-bit type `off_t`. -/
def to_off_t (x : Int) : Int := (x + 2 ^ 63) % 2 ^ 64 - 2 ^ 63

/-- Conversion of an integer value to the unsigned 32-bit type `size_t`. -/
def to_size_t (x : Int) : Int := x % 2 ^ 32

/-! ## Constants of headers that are not part of the sources -/

/-- Constants and the macro used by `file.c` whose declarations live in
headers outside the sources (`kern/limits.h`, `kern/fcntl.h`, `kern/seek.h`,
`kern/errno.h`): they are parameters of the model.  Error numbers are nonzero
(zero is the success return) and the three `whence` codes are distinct. -/
structure Consts where
  OPEN_MAX : Nat
  VALID_FLAGS : Int
  O_RDONLY : Int
  O_WRONLY : Int
  O_RDWR : Int
  O_ACCMODE : Int
  SEEK_SET : Int
  SEEK_CUR : Int
  SEEK_END : Int
  EINVAL : Int
  ENOMEM : Int
  EMFILE : Int
  ENFILE : Int
  EBADF : Int
  ESPIPE : Int
  KERNEL_ABS : Int → Int
  EINVAL_ne : EINVAL ≠ 0
  ENOMEM_ne : ENOMEM ≠ 0
  EMFILE_ne : EMFILE ≠ 0
  ENFILE_ne : ENFILE ≠ 0
  EBADF_ne : EBADF ≠ 0
  ESPIPE_ne : ESPIPE ≠ 0
  seek_distinct : SEEK_SET ≠ SEEK_CUR ∧ SEEK_SET ≠ SEEK_END ∧ SEEK_CUR ≠ SEEK_END

/-- Modelled from the spec: the values of the constants that `file.c` takes
from headers outside the sources, used to run the model on concrete inputs.
`VALID_FLAGS` is the access mode combined with the create, truncate and append
modifiers, `KERNEL_ABS` is the magnitude of its argument, the table capacity is
128, and the remaining numbers are the usual codes of the kernel ABI. -/
def os161 : Consts where
  OPEN_MAX := 128
  VALID_FLAGS := 55
  O_RDONLY := 0
  O_WRONLY := 1
  O_RDWR := 2
  O_ACCMODE := 3
  SEEK_SET := 0
  SEEK_CUR := 1
  SEEK_END := 2
  EINVAL := 8
  ENOMEM := 3
  EMFILE := 28
  ENFILE := 29
  EBADF := 30
  ESPIPE := 33
  KERNEL_ABS := fun x => if x < 0 then -x else x
  EINVAL_ne := by decide
  ENOMEM_ne := by decide
  EMFILE_ne := by decide
  ENFILE_ne := by decide
  EBADF_ne := by decide
  ESPIPE_ne := by decide
  seek_distinct := by decide

/-! ## Data model (`kern/include/file.h`) -/

/-- Undefined behaviour of the C code, made explicit. -/
inductive Fault where
  | null_deref
  | out_of_bounds
  | use_after_free
  | stack_overflow
  deriving DecidableEq, Repr

/-- The `struct file_descriptor` of one descriptor slot. -/
structure file_descriptor where
  in_use : Int
  global_index : Int
  deriving DecidableEq, Repr

/-- The `struct open_file`; the vnode pointer is an abstract node identity. -/
structure open_file where
  vnode : Nat
  offset : Int
  ref_count : Int
  flag : Int
  deriving DecidableEq, Repr

/-- One entry of `oft->files`, a `struct open_file *`: `NULL`, a pointer to an
allocated object, or a (non-`NULL`) pointer to an object already passed to
`kfree`. -/
inductive of_ptr where
  | NULL
  | live (of : open_file)
  | freed
  deriving DecidableEq, Repr

/-- The direction `enum uio_rw`. -/
inductive uio_rw where
  | UIO_READ
  | UIO_WRITE
  deriving DecidableEq, Repr

/-- Calls made to the storage layer, in the order they are made. -/
inductive vfs_call where
  | vfs_open (path : List Nat) (flags : Int) (mode : Int)
  | vfs_close (vn : Nat)
  | VOP_READ (vn : Nat) (offset : Int) (buflen : Int)
  | VOP_WRITE (vn : Nat) (offset : Int) (buflen : Int)
  | VOP_ISSEEKABLE (vn : Nat)
  | VOP_STAT (vn : Nat)
  deriving DecidableEq, Repr

/-- Kernel state seen by `file.c`: `curproc->fdtable->fd_array`, `oft->files`
and the log of storage-layer calls. -/
structure kstate where
  fd_array : List file_descriptor
  files : List of_ptr
  vfs_log : List vfs_call
  deriving DecidableEq, Repr

/-- State after `of_table_init` and `fd_table_init`: every global slot is
`NULL`, every descriptor has `in_use = 0` and `global_index = -1`. -/
def init_state (K : Consts) : kstate where
  fd_array := List.replicate K.OPEN_MAX { in_use := 0, global_index := -1 }
  files := List.replicate K.OPEN_MAX of_ptr.NULL
  vfs_log := []

/-! ## Outcomes of the external collaborators -/

/-- Outcomes met by one `sys_open`: whether `kmalloc(PATH_MAX)` succeeds, the
result of `copyinstr` and the path it copied, the result of `vfs_open` and the
node it returned, whether `kmalloc(sizeof(struct open_file))` succeeds. -/
structure open_env where
  path_alloc : Bool
  copyinstr : Int
  kpath : List Nat
  vfs_open : Int
  vn : Nat
  of_alloc : Bool
  deriving DecidableEq, Repr

/-- Outcomes met by one `sys_rw`: the number of bytes the kernel stack has
left for the array `kernel_buf` when the call is made, the result of `copyin`,
the result of `VOP_READ`/`VOP_WRITE`, and the `uio_offset` and `uio_resid` it
leaves. -/
structure rw_env where
  stack_room : Int
  copyin : Int
  vop_result : Int
  uio_offset : Int
  uio_resid : Int
  deriving DecidableEq, Repr

/-- Outcomes met by one `sys_lseek`: `VOP_ISSEEKABLE`, the result of
`VOP_STAT` and the `st_size` it reports. -/
structure lseek_env where
  seekable : Bool
  stat_result : Int
  st_size : Int
  deriving DecidableEq, Repr

/-! ## Helper functions of `file.c` -/

/-- Appends one storage-layer call to the log. -/
def log_call (s : kstate) (c : vfs_call) : kstate :=
  { s with vfs_log := s.vfs_log ++ [c] }

/-- The function `create_open_file`: returns the state, the result code and
the object built (`*ret`). -/
def create_open_file (K : Consts) (s : kstate) (path : List Nat) (flags : Int) (mode : Int)
    (env : open_env) : kstate × Int × Option open_file :=
  let s1 := log_call s (vfs_call.vfs_open path flags mode)
  if env.vfs_open ≠ 0 then (s1, env.vfs_open, none)
  else if env.of_alloc = false then
    (log_call s1 (vfs_call.vfs_close env.vn), K.ENOMEM, none)
  else (s1, 0, some { vnode := env.vn, offset := 0, ref_count := 1, flag := flags })

/-- The loop of `insert_open_file` from index `i` with `n` iterations left:
`some (files, i)` when slot `i` was `NULL` and now holds the object, `none`
when the loop ran to its end. -/
def insert_open_file_loop (files : List of_ptr) (of : open_file) :
    Nat → Nat → Except Fault (Option (List of_ptr × Nat))
  | _, 0 => Except.ok none
  | i, n + 1 =>
    match files[i]? with
    | none => Except.error Fault.out_of_bounds
    | some of_ptr.NULL => Except.ok (some (files.set i (of_ptr.live of), i))
    | some _ => insert_open_file_loop files of (i + 1) n

/-- The function `insert_open_file`: returns the state, the result code and
`*global_index` when it was written. -/
def insert_open_file (K : Consts) (s : kstate) (of : open_file) :
    Except Fault (kstate × Int × Option Int) :=
  match insert_open_file_loop s.files of 0 K.OPEN_MAX with
  | Except.error f => Except.error f
  | Except.ok (some (files, i)) => Except.ok ({ s with files := files }, 0, some (i : Int))
  | Except.ok none => Except.ok (log_call s (vfs_call.vfs_close of.vnode), K.ENFILE, none)

/-- The loop of `allocate_fd` from index `i` with `n` iterations left. -/
def allocate_fd_loop (fd_array : List file_descriptor) (global_index : Int) :
    Nat → Nat → Except Fault (List file_descriptor × Int)
  | _, 0 => Except.ok (fd_array, -1)
  | i, n + 1 =>
    match fd_array[i]? with
    | none => Except.error Fault.out_of_bounds
    | some d =>
      if d.in_use = 0 then
        Except.ok (fd_array.set i { in_use := 1, global_index := global_index }, (i : Int))
      else allocate_fd_loop fd_array global_index (i + 1) n

/-- The function `allocate_fd`: the new descriptor array and the descriptor
returned (`-1` when none is free). -/
def allocate_fd (K : Consts) (fd_array : List file_descriptor) (global_index : Int) :
    Except Fault (List file_descriptor × Int) :=
  allocate_fd_loop fd_array global_index 0 K.OPEN_MAX

/-- The function `fd_check`: the global index of a valid descriptor, else `-1`. -/
def fd_check (K : Consts) (s : kstate) (fd : Int) : Except Fault Int :=
  if fd < 0 ∨ fd ≥ (K.OPEN_MAX : Int) then Except.ok (-1)
  else
    match s.fd_array[fd.toNat]? with
    | none => Except.error Fault.out_of_bounds
    | some d =>
      if d.in_use = 0 then Except.ok (-1)
      else if d.global_index < 0 ∨ d.global_index ≥ (K.OPEN_MAX : Int) then
        Except.error Fault.out_of_bounds
      else
        match s.files[d.global_index.toNat]? with
        | none => Except.error Fault.out_of_bounds
        | some of_ptr.NULL => Except.ok (-1)
        | some _ => Except.ok d.global_index

/-! ## System calls -/

/-- The system call `sys_open`: returns the state, the result code and
`*retval`.  The user pointer `pathname` is represented by what `copyinstr`
does with it: its result and the kernel path it leaves, both in `env`. -/
def sys_open (K : Consts) (s : kstate) (flags : Int) (mode : Int) (env : open_env) :
    Except Fault (kstate × Int × Int) :=
  if Int.land flags K.VALID_FLAGS ≠ flags then Except.ok (s, K.EINVAL, -1)
  else if env.path_alloc = false then Except.ok (s, K.ENOMEM, -1)
  else if env.copyinstr ≠ 0 then Except.ok (s, env.copyinstr, -1)
  else
    match create_open_file K s env.kpath flags mode env with
    | (s1, _, some of) =>
      match insert_open_file K s1 of with
      | Except.error f => Except.error f
      | Except.ok (s2, _, some global_index) =>
        match allocate_fd K s2.fd_array global_index with
        | Except.error f => Except.error f
        | Except.ok (fd_array, fd_index) =>
          if fd_index < 0 then
            -- vfs_close(of->vnode); kfree(of): the table entry is left in place
            Except.ok
              ({ log_call s2 (vfs_call.vfs_close of.vnode) with
                  files := s2.files.set global_index.toNat of_ptr.freed },
                K.EMFILE, -1)
          else Except.ok ({ s2 with fd_array := fd_array }, 0, fd_index)
      | Except.ok (s2, result, none) => Except.ok (s2, result, -1)
    | (s1, result, none) => Except.ok (s1, result, -1)

/-- The system call `sys_close`: returns the state and the result code. -/
def sys_close (K : Consts) (s : kstate) (fd : Int) : Except Fault (kstate × Int) :=
  match fd_check K s fd with
  | Except.error f => Except.error f
  | Except.ok global_index =>
    if global_index < 0 then Except.ok (s, K.EBADF)
    else
      match s.files[global_index.toNat]? with
      | none => Except.error Fault.out_of_bounds
      | some of_ptr.NULL => Except.error Fault.null_deref
      | some of_ptr.freed => Except.error Fault.use_after_free
      | some (of_ptr.live of) =>
        let s1 := log_call s (vfs_call.vfs_close of.vnode)
        let ref_count := to_int (of.ref_count - 1)
        if ref_count = 0 then
          Except.ok
            ({ s1 with
                files := s1.files.set global_index.toNat of_ptr.NULL
                fd_array := s1.fd_array.set fd.toNat { in_use := 0, global_index := -1 } }, 0)
        else
          Except.ok
            ({ s1 with
                files := s1.files.set global_index.toNat
                  (of_ptr.live { of with ref_count := ref_count }) }, 0)

/-- The function `sys_rw`: returns the state, the result code and `*retval`.
The array `char kernel_buf[buflen]` is taken from the kernel stack, for reads
and writes alike, once the access mode has been checked: a `buflen` above the
room the stack has left overruns it. -/
def sys_rw (K : Consts) (s : kstate) (fd : Int) (buflen : Int) (flag : uio_rw) (env : rw_env) :
    Except Fault (kstate × Int × Int) :=
  match fd_check K s fd with
  | Except.error f => Except.error f
  | Except.ok global_index =>
    if global_index < 0 then Except.ok (s, K.EBADF, to_size_t (-1))
    else
      match s.files[global_index.toNat]? with
      | none => Except.error Fault.out_of_bounds
      | some of_ptr.NULL => Except.error Fault.null_deref
      | some of_ptr.freed => Except.error Fault.use_after_free
      | some (of_ptr.live of) =>
        if (flag = uio_rw.UIO_WRITE ∧ Int.land of.flag K.O_ACCMODE ≠ K.O_WRONLY
              ∧ Int.land of.flag K.O_ACCMODE ≠ K.O_RDWR)
            ∨ (flag = uio_rw.UIO_READ ∧ Int.land of.flag K.O_ACCMODE ≠ K.O_RDONLY
              ∧ Int.land of.flag K.O_ACCMODE ≠ K.O_RDWR) then
          Except.ok (s, K.EINVAL, to_size_t (-1))
        else if buflen > env.stack_room then Except.error Fault.stack_overflow
        else if flag = uio_rw.UIO_WRITE ∧ env.copyin ≠ 0 then
          Except.ok (s, env.copyin, to_size_t (-1))
        else
          let s1 := log_call s
            (match flag with
             | uio_rw.UIO_WRITE => vfs_call.VOP_WRITE of.vnode of.offset buflen
             | uio_rw.UIO_READ => vfs_call.VOP_READ of.vnode of.offset buflen)
          if env.vop_result ≠ 0 then Except.ok (s1, env.vop_result, to_size_t (-1))
          else
            Except.ok
              ({ s1 with
                  files := s1.files.set global_index.toNat
                    (of_ptr.live { of with offset := env.uio_offset }) },
                0, to_size_t (buflen - env.uio_resid))

/-- The system call `sys_read`. -/
def sys_read (K : Consts) (s : kstate) (fd : Int) (buflen : Int) (env : rw_env) :
    Except Fault (kstate × Int × Int) :=
  sys_rw K s fd buflen uio_rw.UIO_READ env

/-- The system call `sys_write`. -/
def sys_write (K : Consts) (s : kstate) (fd : Int) (buflen : Int) (env : rw_env) :
    Except Fault (kstate × Int × Int) :=
  sys_rw K s fd buflen uio_rw.UIO_WRITE env

/-- The system call `sys_lseek`: returns the state, the result code and
`*retval`. -/
def sys_lseek (K : Consts) (s : kstate) (fd : Int) (offset : Int) (whence : Int)
    (env : lseek_env) : Except Fault (kstate × Int × Int) :=
  match fd_check K s fd with
  | Except.error f => Except.error f
  | Except.ok global_index =>
    if global_index = -1 then Except.ok (s, K.EBADF, -1)
    else
      match s.files[global_index.toNat]? with
      | none => Except.error Fault.out_of_bounds
      | some of_ptr.NULL => Except.error Fault.null_deref
      | some of_ptr.freed => Except.error Fault.use_after_free
      | some (of_ptr.live of) =>
        let s1 := log_call s (vfs_call.VOP_ISSEEKABLE of.vnode)
        if env.seekable = false then Except.ok (s1, K.ESPIPE, -1)
        else
          let s2 := log_call s1 (vfs_call.VOP_STAT of.vnode)
          if env.stat_result ≠ 0 then Except.ok (s2, env.stat_result, -1)
          else
            let file_size := env.st_size
            let cur_offset := to_int of.offset
            let store (position : Int) : Except Fault (kstate × Int × Int) :=
              Except.ok
                ({ s2 with
                    files := s2.files.set global_index.toNat
                      (of_ptr.live { of with offset := position }) },
                  0, position)
            if whence = K.SEEK_SET then
              if offset < 0 then Except.ok (s2, K.EINVAL, -1)
              else store offset
            else if whence = K.SEEK_CUR then
              if offset < 0 ∧ K.KERNEL_ABS offset > cur_offset then Except.ok (s2, K.EINVAL, -1)
              else store (to_off_t (offset + cur_offset))
            else if whence = K.SEEK_END then
              if offset < 0 ∧ K.KERNEL_ABS offset > file_size then Except.ok (s2, K.EINVAL, -1)
              else store (to_off_t (offset + file_size))
            else Except.ok (s2, K.EINVAL, -1)

/-- The increment `oft->files[global_index]->ref_count++` of `sys_dup2`. -/
def incr_ref_count (s : kstate) (global_index : Int) : Except Fault kstate :=
  match s.files[global_index.toNat]? with
  | none => Except.error Fault.out_of_bounds
  | some of_ptr.NULL => Except.error Fault.null_deref
  | some of_ptr.freed => Except.error Fault.use_after_free
  | some (of_ptr.live of) =>
    Except.ok
      { s with
          files := s.files.set global_index.toNat
            (of_ptr.live { of with ref_count := to_int (of.ref_count + 1) }) }

/-- The assignment `fd_array[new_fd] = fd_array[old_fd]` followed by the
reference-count increment, the tail of the `else` branch of `sys_dup2`. -/
def dup2_bind (s : kstate) (old_fd new_fd global_index : Int) :
    Except Fault (kstate × Int × Int) :=
  match s.fd_array[old_fd.toNat]? with
  | none => Except.error Fault.out_of_bounds
  | some d =>
    match incr_ref_count { s with fd_array := s.fd_array.set new_fd.toNat d } global_index with
    | Except.error f => Except.error f
    | Except.ok s1 => Except.ok (s1, 0, new_fd)

/-- The system call `sys_dup2`: returns the state, the result code and
`*retval`. -/
def sys_dup2 (K : Consts) (s : kstate) (old_fd new_fd : Int) :
    Except Fault (kstate × Int × Int) :=
  if old_fd < 0 ∨ old_fd ≥ (K.OPEN_MAX : Int) ∨ new_fd < 0 ∨ new_fd ≥ (K.OPEN_MAX : Int) then
    Except.ok (s, K.EBADF, -1)
  else
    match fd_check K s old_fd with
    | Except.error f => Except.error f
    | Except.ok global_index =>
      if global_index = -1 then Except.ok (s, K.EBADF, -1)
      else if old_fd = new_fd then Except.ok (s, 0, new_fd)
      else
        match s.fd_array[new_fd.toNat]? with
        | none => Except.error Fault.out_of_bounds
        | some dn =>
          if dn.global_index ≠ -1 then
            match sys_close K s new_fd with
            | Except.error f => Except.error f
            | Except.ok (s1, result) =>
              if result ≠ 0 then Except.ok (s1, K.EBADF, -1)
              else dup2_bind s1 old_fd new_fd global_index
          else dup2_bind s old_fd new_fd global_index

/-! ## Console bootstrap and table teardown -/

/-- Modelled from the spec: `STDIN_FILENO` of `kern/unistd.h`, which is not
among the sources; the bootstrap populates descriptors 0, 1 and 2. -/
def STDIN_FILENO : Int := 0

/-- Modelled from the spec: `STDOUT_FILENO` of `kern/unistd.h`, which is not
among the sources; the bootstrap populates descriptors 0, 1 and 2. -/
def STDOUT_FILENO : Int := 1

/-- Modelled from the spec: `STDERR_FILENO` of `kern/unistd.h`, which is not
among the sources; the bootstrap populates descriptors 0, 1 and 2. -/
def STDERR_FILENO : Int := 2

/-- The string "con:" that `setup_stdout_stderr` copies into `conname`. -/
def conname : List Nat := [99, 111, 110, 58]

/-- The function `open_console`: `create_open_file` with mode 0; returns the
state, the result code and the object (`*of_ret`).  Of `env` only the outcome
of `vfs_open`, the node and the outcome of the `kmalloc` of the object are
used. -/
def open_console (K : Consts) (s : kstate) (path : List Nat) (flags : Int) (env : open_env) :
    kstate × Int × Option open_file :=
  create_open_file K s path flags 0 env

/-- The function `init_fd_for_console`: returns the state and the result
code. -/
def init_fd_for_console (K : Consts) (s : kstate) (of : open_file) (fd_target : Int) :
    Except Fault (kstate × Int) :=
  match insert_open_file K s of with
  | Except.error f => Except.error f
  | Except.ok (s1, result, none) => Except.ok (s1, result)
  | Except.ok (s1, _, some global_index) =>
    match allocate_fd K s1.fd_array global_index with
    | Except.error f => Except.error f
    | Except.ok (fd_array, fd) =>
      if fd ≠ fd_target then
        -- vfs_close(of->vnode); kfree(of): the table entry and the descriptor stay
        Except.ok
          ({ fd_array := fd_array,
             files := s1.files.set global_index.toNat of_ptr.freed,
             vfs_log := s1.vfs_log ++ [vfs_call.vfs_close of.vnode] }, K.EMFILE)
      else Except.ok ({ s1 with fd_array := fd_array }, 0)

/-- One console descriptor of `setup_stdout_stderr`: `open_console` on "con:"
with `O_WRONLY`, then `init_fd_for_console` on the target descriptor. -/
def setup_console (K : Consts) (s : kstate) (fd_target : Int) (env : open_env) :
    Except Fault (kstate × Int) :=
  match open_console K s conname K.O_WRONLY env with
  | (s1, result, none) => Except.ok (s1, result)
  | (s1, _, some of) => init_fd_for_console K s1 of fd_target

/-- The function `setup_stdout_stderr`: returns the state and the result code;
`env0`, `env1`, `env2` are the outcomes met by the three console opens. -/
def setup_stdout_stderr (K : Consts) (s : kstate) (env0 env1 env2 : open_env) :
    Except Fault (kstate × Int) :=
  match setup_console K s STDIN_FILENO env0 with
  | Except.error f => Except.error f
  | Except.ok (s1, result) =>
    if result ≠ 0 then Except.ok (s1, result)
    else
      match setup_console K s1 STDOUT_FILENO env1 with
      | Except.error f => Except.error f
      | Except.ok (s2, result) =>
        if result ≠ 0 then Except.ok (s2, result)
        else
          match setup_console K s2 STDERR_FILENO env2 with
          | Except.error f => Except.error f
          | Except.ok (s3, result) =>
            if result ≠ 0 then Except.ok (s3, result)
            else Except.ok (s3, 0)

/-- The loop of `fd_table_destory` from index `i` with `n` iterations left, on
the descriptor table of the current process: `sys_close` is given the slot's
`global_index`, and its result is ignored. -/
def fd_table_destory_loop (K : Consts) : Nat → Nat → kstate → Except Fault kstate
  | _, 0, s => Except.ok s
  | i, n + 1, s =>
    match s.fd_array[i]? with
    | none => Except.error Fault.out_of_bounds
    | some d =>
      if d.in_use ≠ 0 then
        match sys_close K s d.global_index with
        | Except.error f => Except.error f
        | Except.ok (s1, _) => fd_table_destory_loop K (i + 1) n s1
      else fd_table_destory_loop K (i + 1) n s

/-- The function `fd_table_destory` applied to the descriptor table of the
current process: the state when the loop ends, just before `kfree(fdt)`. -/
def fd_table_destory (K : Consts) (s : kstate) : Except Fault kstate :=
  fd_table_destory_loop K 0 K.OPEN_MAX s

/-! ## Reachable states -/

/-- One system call together with its arguments and the outcomes of the
external collaborators it meets. -/
inductive syscall where
  | open (flags mode : Int) (env : open_env)
  | close (fd : Int)
  | read (fd buflen : Int) (env : rw_env)
  | write (fd buflen : Int) (env : rw_env)
  | lseek (fd offset whence : Int) (env : lseek_env)
  | dup2 (old_fd new_fd : Int)
  deriving DecidableEq, Repr

/-- Runs one system call: the state it leaves and its result code. -/
def exec (K : Consts) (s : kstate) : syscall → Except Fault (kstate × Int)
  | syscall.open flags mode env => (sys_open K s flags mode env).map fun r => (r.1, r.2.1)
  | syscall.close fd => sys_close K s fd
  | syscall.read fd buflen env => (sys_read K s fd buflen env).map fun r => (r.1, r.2.1)
  | syscall.write fd buflen env => (sys_write K s fd buflen env).map fun r => (r.1, r.2.1)
  | syscall.lseek fd offset whence env =>
    (sys_lseek K s fd offset whence env).map fun r => (r.1, r.2.1)
  | syscall.dup2 old_fd new_fd => (sys_dup2 K s old_fd new_fd).map fun r => (r.1, r.2.1)

/-- Runs a sequence of system calls from a state, whatever each one returns. -/
def run (K : Consts) : List syscall → kstate → Except Fault kstate
  | [], s => Except.ok s
  | c :: cs, s =>
    match exec K s c with
    | Except.error f => Except.error f
    | Except.ok (s1, _) => run K cs s1

/-- One system call, with arbitrary arguments and arbitrary outcomes of the
external collaborators, takes the kernel from the first state to the second. -/
def Step (K : Consts) (s s1 : kstate) : Prop :=
  ∃ (c : syscall) (result : Int), exec K s c = Except.ok (s1, result)

/-- States reachable from the initialised tables by any sequence of system
calls. -/
inductive Reachable (K : Consts) : kstate → Prop where
  | init : Reachable K (init_state K)
  | step (s s1 : kstate) : Reachable K s → Step K s s1 → Reachable K s1

/-! ## Reference-count invariant -/

/-- Descriptor entry in use and bound to global index `g`. -/
def bound_to (g : Nat) (d : file_descriptor) : Bool :=
  decide (d.in_use ≠ 0 ∧ d.global_index = (g : Int))

/-- Number of descriptors in use that are bound to global index `g`. -/
def bound_count (fd_array : List file_descriptor) (g : Nat) : Nat :=
  fd_array.countP (bound_to g)

/-- Every live object of the global table has a reference count of at least 1
and at most the number of descriptors bound to its slot (or 1 when there is
none). -/
def counts_ok (fd_array : List file_descriptor) (files : List of_ptr) : Prop :=
  ∀ (g : Nat) (of : open_file), files[g]? = some (of_ptr.live of) →
    1 ≤ of.ref_count ∧ (of.ref_count ≤ 1 ∨ of.ref_count ≤ (bound_count fd_array g : Int))

/-- Reference-count invariant of the two tables: the descriptor table has its
fixed size and the reference counts are within the bounds of `counts_ok`. -/
def table_inv (K : Consts) (s : kstate) : Prop :=
  s.fd_array.length = K.OPEN_MAX ∧ counts_ok s.fd_array s.files

/-! ## Concrete inputs -/

/-- Outcomes of a `sys_open` in which every external step succeeds and the
storage layer returns node 7 for the path "f". -/
def env_ok : open_env where
  path_alloc := true
  copyinstr := 0
  kpath := [102]
  vfs_open := 0
  vn := 7
  of_alloc := true

/-- The calls `open("f", O_RDONLY)` then `dup2(0, i)` for `i = 1 .. 127`, which
bring every descriptor of the table into use. -/
def fill_script : List syscall :=
  syscall.open 0 0 env_ok :: (List.range 127).map fun i => syscall.dup2 0 ((i : Int) + 1)

/-- The state left by `fill_script`: all 128 descriptors are in use and bound
to global slot 0, whose object has reference count 128; every other global
slot is `NULL`. -/
def full_state : kstate where
  fd_array := List.replicate 128 { in_use := 1, global_index := 0 }
  files := of_ptr.live { vnode := 7, offset := 0, ref_count := 128, flag := 0 }
    :: List.replicate 127 of_ptr.NULL
  vfs_log := [vfs_call.vfs_open [102] 0 0]

/-- The calls `open("f", O_RDONLY)`, `dup2(0, 1)`, `close(0)`, `close(0)`. -/
def double_close_script : List syscall :=
  [syscall.open 0 0 env_ok, syscall.dup2 0 1, syscall.close 0, syscall.close 0]

/-- The state left by `double_close_script`: descriptor 1 is in use and bound
to global slot 0, and every global slot is `NULL`. -/
def double_close_state : kstate where
  fd_array := { in_use := 0, global_index := -1 } :: { in_use := 1, global_index := 0 }
    :: List.replicate 126 { in_use := 0, global_index := -1 }
  files := List.replicate 128 of_ptr.NULL
  vfs_log := [vfs_call.vfs_open [102] 0 0, vfs_call.vfs_close 7, vfs_call.vfs_close 7]

/-- Outcomes of a second successful `sys_open`, on node 9 for the path "g". -/
def env_ok2 : open_env where
  path_alloc := true
  copyinstr := 0
  kpath := [103]
  vfs_open := 0
  vn := 9
  of_alloc := true

/-- Outcomes of a `sys_lseek` on a seekable node whose `VOP_STAT` succeeds and
reports size 0. -/
def seek_env : lseek_env where
  seekable := true
  stat_result := 0
  st_size := 0

/-- The state after `open("f", O_RDONLY)` on the initialised tables:
descriptor 0 is bound to global slot 0. -/
def one_file_state : kstate where
  fd_array := { in_use := 1, global_index := 0 }
    :: List.replicate 127 { in_use := 0, global_index := -1 }
  files := of_ptr.live { vnode := 7, offset := 0, ref_count := 1, flag := 0 }
    :: List.replicate 127 of_ptr.NULL
  vfs_log := [vfs_call.vfs_open [102] 0 0]

/-- The state after `open("f", O_RDONLY)` and `dup2(0, 1)`: descriptors 0 and 1
share global slot 0, whose object has reference count 2. -/
def shared_state : kstate where
  fd_array := { in_use := 1, global_index := 0 } :: { in_use := 1, global_index := 0 }
    :: List.replicate 126 { in_use := 0, global_index := -1 }
  files := of_ptr.live { vnode := 7, offset := 0, ref_count := 2, flag := 0 }
    :: List.replicate 127 of_ptr.NULL
  vfs_log := [vfs_call.vfs_open [102] 0 0]

/-- The state after `open("f", O_RDONLY)` and `open("g", O_RDONLY)`:
descriptor 0 is bound to global slot 0 and descriptor 1 to global slot 1. -/
def two_file_state : kstate where
  fd_array := { in_use := 1, global_index := 0 } :: { in_use := 1, global_index := 1 }
    :: List.replicate 126 { in_use := 0, global_index := -1 }
  files := of_ptr.live { vnode := 7, offset := 0, ref_count := 1, flag := 0 }
    :: of_ptr.live { vnode := 9, offset := 0, ref_count := 1, flag := 0 }
    :: List.replicate 126 of_ptr.NULL
  vfs_log := [vfs_call.vfs_open [102] 0 0, vfs_call.vfs_open [103] 0 0]

/-- The calls `open("f", O_RDONLY)` then `lseek(0, 2^31, SEEK_SET)`. -/
def far_seek_script : List syscall :=
  [syscall.open 0 0 env_ok, syscall.lseek 0 2147483648 0 seek_env]

/-- The state left by `far_seek_script`: descriptor 0 is bound to global slot
0, whose object has its cursor at `2^31`. -/
def far_seek_state : kstate where
  fd_array := { in_use := 1, global_index := 0 }
    :: List.replicate 127 { in_use := 0, global_index := -1 }
  files := of_ptr.live { vnode := 7, offset := 2147483648, ref_count := 1, flag := 0 }
    :: List.replicate 127 of_ptr.NULL
  vfs_log := [vfs_call.vfs_open [102] 0 0, vfs_call.VOP_ISSEEKABLE 7, vfs_call.VOP_STAT 7]

/-- The calls `open("f", O_RDONLY)`, `dup2(0, 1)`, `close(0)`; each returns 0. -/
def half_closed_script : List syscall :=
  [syscall.open 0 0 env_ok, syscall.dup2 0 1, syscall.close 0]

/-- The state left by `half_closed_script`: descriptors 0 and 1 are both in
use and bound to global slot 0, whose object has reference count 1. -/
def half_closed_state : kstate where
  fd_array := { in_use := 1, global_index := 0 } :: { in_use := 1, global_index := 0 }
    :: List.replicate 126 { in_use := 0, global_index := -1 }
  files := of_ptr.live { vnode := 7, offset := 0, ref_count := 1, flag := 0 }
    :: List.replicate 127 of_ptr.NULL
  vfs_log := [vfs_call.vfs_open [102] 0 0, vfs_call.vfs_close 7]

/-- The calls `open("f", O_RDONLY)`, `lseek(0, 2^31, SEEK_SET)`,
`lseek(0, 0, SEEK_CUR)`: no read and no write. -/
def neg_seek_script : List syscall :=
  [syscall.open 0 0 env_ok, syscall.lseek 0 2147483648 0 seek_env,
    syscall.lseek 0 0 1 seek_env]

/-- The state left by `neg_seek_script`: the object of global slot 0 has the
offset `-2^31`. -/
def neg_seek_state : kstate where
  fd_array := { in_use := 1, global_index := 0 }
    :: List.replicate 127 { in_use := 0, global_index := -1 }
  files := of_ptr.live { vnode := 7, offset := -2147483648, ref_count := 1, flag := 0 }
    :: List.replicate 127 of_ptr.NULL
  vfs_log := [vfs_call.vfs_open [102] 0 0, vfs_call.VOP_ISSEEKABLE 7, vfs_call.VOP_STAT 7,
    vfs_call.VOP_ISSEEKABLE 7, vfs_call.VOP_STAT 7]

/-- Outcomes of a successful console open that returns node `vn`. -/
def console_env (vn : Nat) : open_env where
  path_alloc := true
  copyinstr := 0
  kpath := []
  vfs_open := 0
  vn := vn
  of_alloc := true

/-- The state in which a second process starts: its descriptor table is
freshly initialised, and global slots 0, 1, 2 hold the console objects of the
first process. -/
def second_process_start : kstate where
  fd_array := List.replicate 128 { in_use := 0, global_index := -1 }
  files := of_ptr.live { vnode := 1, offset := 0, ref_count := 1, flag := 1 }
    :: of_ptr.live { vnode := 2, offset := 0, ref_count := 1, flag := 1 }
    :: of_ptr.live { vnode := 3, offset := 0, ref_count := 1, flag := 1 }
    :: List.replicate 125 of_ptr.NULL
  vfs_log := []

/-- The state of the second process after `setup_stdout_stderr`: its
descriptors 0, 1, 2 are bound to global slots 3, 4, 5, each holding an object of
its own with reference count 1. -/
def second_process_state : kstate where
  fd_array := { in_use := 1, global_index := 3 } :: { in_use := 1, global_index := 4 }
    :: { in_use := 1, global_index := 5 }
    :: List.replicate 125 { in_use := 0, global_index := -1 }
  files := of_ptr.live { vnode := 1, offset := 0, ref_count := 1, flag := 1 }
    :: of_ptr.live { vnode := 2, offset := 0, ref_count := 1, flag := 1 }
    :: of_ptr.live { vnode := 3, offset := 0, ref_count := 1, flag := 1 }
    :: of_ptr.live { vnode := 4, offset := 0, ref_count := 1, flag := 1 }
    :: of_ptr.live { vnode := 5, offset := 0, ref_count := 1, flag := 1 }
    :: of_ptr.live { vnode := 6, offset := 0, ref_count := 1, flag := 1 }
    :: List.replicate 122 of_ptr.NULL
  vfs_log := [vfs_call.vfs_open conname 1 0, vfs_call.vfs_open conname 1 0,
    vfs_call.vfs_open conname 1 0]

/-- Outcomes of a `sys_lseek` on a node that is not seekable. -/
def pipe_env : lseek_env where
  seekable := false
  stat_result := 0
  st_size := 0

/-- Outcomes of a `sys_rw` on a kernel stack with 4096 bytes left, whose
storage primitive succeeds, leaves the offset at 10 and a residual count of 2. -/
def read_env : rw_env where
  stack_room := 4096
  copyin := 0
  vop_result := 0
  uio_offset := 10
  uio_resid := 2

/-! ## Running sequences of calls -/

theorem run_reachable (K : Consts) (cs : List syscall) :
    ∀ (s s1 : kstate), Reachable K s → run K cs s = Except.ok s1 → Reachable K s1 := by
  induction cs with
  | nil =>
    intro s s1 hs h
    simp only [run, Except.ok.injEq] at h
    exact h ▸ hs
  | cons c cs ih =>
    intro s s1 hs h
    simp only [run] at h
    cases hc : exec K s c with
    | error f => simp [hc] at h
    | ok r =>
      obtain ⟨s2, res⟩ := r
      simp only [hc] at h
      exact ih s2 s1 (Reachable.step s s2 hs ⟨c, res, hc⟩) h

theorem full_state_run :
    run os161 fill_script (init_state os161) = Except.ok full_state := by
  decide

theorem double_close_run :
    run os161 double_close_script (init_state os161) = Except.ok double_close_state := by
  decide

theorem far_seek_run :
    run os161 far_seek_script (init_state os161) = Except.ok far_seek_state := by
  decide

theorem to_int_of_range (x : Int) (h1 : -2 ^ 31 ≤ x) (h2 : x < 2 ^ 31) : to_int x = x := by
  unfold to_int
  norm_num at h1 h2 ⊢
  omega

theorem to_int_incr_decr (r : Int) (h1 : -2 ^ 31 ≤ r) (h2 : r < 2 ^ 31) :
    to_int (to_int (r + 1) - 1) = r := by
  unfold to_int
  norm_num at h1 h2 ⊢
  omega

/-! ## The scans of `insert_open_file` and `allocate_fd` -/

theorem insert_open_file_loop_found (files : List of_ptr) (of : open_file) (g : Nat)
    (hg : files[g]? = some of_ptr.NULL) :
    ∀ (n i : Nat), i ≤ g → g < i + n →
      (∀ j, i ≤ j → j < g → ∃ p, files[j]? = some p ∧ p ≠ of_ptr.NULL) →
      insert_open_file_loop files of i n
        = Except.ok (some (files.set g (of_ptr.live of), g)) := by
  intro n
  induction n with
  | zero => intro i h1 h2; omega
  | succ n ih =>
    intro i h1 h2 hlow
    rcases Nat.eq_or_lt_of_le h1 with h | h
    · subst h
      simp [insert_open_file_loop, hg]
    · obtain ⟨p, hp, hne⟩ := hlow i (le_refl i) h
      have hrec := ih (i + 1) h (by omega) (fun j hj1 hj2 => hlow j (by omega) hj2)
      cases p with
      | NULL => exact absurd rfl hne
      | live o => simp [insert_open_file_loop, hp, hrec]
      | freed => simp [insert_open_file_loop, hp, hrec]

theorem insert_open_file_loop_full (files : List of_ptr) (of : open_file) :
    ∀ (n i : Nat),
      (∀ j, i ≤ j → j < i + n → ∃ p, files[j]? = some p ∧ p ≠ of_ptr.NULL) →
      insert_open_file_loop files of i n = Except.ok none := by
  intro n
  induction n with
  | zero => intro i _; rfl
  | succ n ih =>
    intro i hall
    obtain ⟨p, hp, hne⟩ := hall i (le_refl i) (by omega)
    have hrec := ih (i + 1) (fun j hj1 hj2 => hall j (by omega) (by omega))
    cases p with
    | NULL => exact absurd rfl hne
    | live o => simp [insert_open_file_loop, hp, hrec]
    | freed => simp [insert_open_file_loop, hp, hrec]

theorem allocate_fd_loop_found (fd_array : List file_descriptor) (gi : Int) (d : Nat)
    (e : file_descriptor) (hd : fd_array[d]? = some e) (he : e.in_use = 0) :
    ∀ (n i : Nat), i ≤ d → d < i + n →
      (∀ j, i ≤ j → j < d → ∃ x, fd_array[j]? = some x ∧ x.in_use ≠ 0) →
      allocate_fd_loop fd_array gi i n
        = Except.ok (fd_array.set d { in_use := 1, global_index := gi }, (d : Int)) := by
  intro n
  induction n with
  | zero => intro i h1 h2; omega
  | succ n ih =>
    intro i h1 h2 hlow
    rcases Nat.eq_or_lt_of_le h1 with h | h
    · subst h
      simp [allocate_fd_loop, hd, he]
    · obtain ⟨x, hx, hne⟩ := hlow i (le_refl i) h
      have hrec := ih (i + 1) h (by omega) (fun j hj1 hj2 => hlow j (by omega) hj2)
      simp [allocate_fd_loop, hx, hne, hrec]

theorem allocate_fd_loop_full (fd_array : List file_descriptor) (gi : Int) :
    ∀ (n i : Nat),
      (∀ j, i ≤ j → j < i + n → ∃ x, fd_array[j]? = some x ∧ x.in_use ≠ 0) →
      allocate_fd_loop fd_array gi i n = Except.ok (fd_array, -1) := by
  intro n
  induction n with
  | zero => intro i _; rfl
  | succ n ih =>
    intro i hall
    obtain ⟨x, hx, hne⟩ := hall i (le_refl i) (by omega)
    have hrec := ih (i + 1) (fun j hj1 hj2 => hall j (by omega) (by omega))
    simp [allocate_fd_loop, hx, hne, hrec]

theorem insert_open_file_loop_some (files : List of_ptr) (of : open_file) :
    ∀ (n i : Nat) (files1 : List of_ptr) (g : Nat),
      insert_open_file_loop files of i n = Except.ok (some (files1, g)) →
      files[g]? = some of_ptr.NULL ∧ files1 = files.set g (of_ptr.live of) ∧
        i ≤ g ∧ g < i + n := by
  intro n
  induction n with
  | zero => intro i files1 g h; simp [insert_open_file_loop] at h
  | succ n ih =>
    intro i files1 g h
    unfold insert_open_file_loop at h
    cases hp : files[i]? with
    | none => simp [hp] at h
    | some p =>
      cases p with
      | NULL =>
        simp [hp] at h
        obtain ⟨h1, h2⟩ := h
        subst h2
        exact ⟨hp, h1.symm, le_refl _, by omega⟩
      | live o =>
        simp [hp] at h
        obtain ⟨a, b, c, e⟩ := ih (i + 1) files1 g h
        exact ⟨a, b, by omega, by omega⟩
      | freed =>
        simp [hp] at h
        obtain ⟨a, b, c, e⟩ := ih (i + 1) files1 g h
        exact ⟨a, b, by omega, by omega⟩

theorem allocate_fd_loop_some (fd_array : List file_descriptor) (gi : Int) :
    ∀ (n i : Nat) (fa : List file_descriptor) (fd : Int),
      allocate_fd_loop fd_array gi i n = Except.ok (fa, fd) → 0 ≤ fd →
      ∃ (d : Nat) (e : file_descriptor), fd = (d : Int) ∧ fd_array[d]? = some e ∧
        e.in_use = 0 ∧ fa = fd_array.set d { in_use := 1, global_index := gi } ∧
        i ≤ d ∧ d < i + n := by
  intro n
  induction n with
  | zero =>
    intro i fa fd h hfd
    simp [allocate_fd_loop] at h
    omega
  | succ n ih =>
    intro i fa fd h hfd
    unfold allocate_fd_loop at h
    cases hp : fd_array[i]? with
    | none => simp [hp] at h
    | some e =>
      by_cases hu : e.in_use = 0
      · simp [hp, hu] at h
        exact ⟨i, e, h.2.symm, hp, hu, h.1.symm, le_refl _, by omega⟩
      · simp [hp, hu] at h
        obtain ⟨d, e1, a, b, c, f, g1, g2⟩ := ih (i + 1) fa fd h hfd
        exact ⟨d, e1, a, b, c, f, by omega, by omega⟩

theorem allocate_fd_loop_neg (fd_array : List file_descriptor) (gi : Int) :
    ∀ (n i : Nat) (fa : List file_descriptor) (fd : Int),
      allocate_fd_loop fd_array gi i n = Except.ok (fa, fd) → fd < 0 →
      fa = fd_array ∧ fd = -1 := by
  intro n
  induction n with
  | zero =>
    intro i fa fd h _
    simp [allocate_fd_loop] at h
    exact ⟨h.1.symm, h.2.symm⟩
  | succ n ih =>
    intro i fa fd h hfd
    unfold allocate_fd_loop at h
    cases hp : fd_array[i]? with
    | none => simp [hp] at h
    | some e =>
      by_cases hu : e.in_use = 0
      · simp [hp, hu] at h
        omega
      · simp [hp, hu] at h
        exact ih (i + 1) fa fd h hfd

/-- A `sys_open` that returns 0 took a `NULL` global slot `g` and a free
descriptor `d`, and changed nothing else. -/
theorem sys_open_ok_inv (K : Consts) (s s1 : kstate) (flags mode : Int) (env : open_env)
    (fd : Int) (h : sys_open K s flags mode env = Except.ok (s1, 0, fd)) :
    ∃ (d g : Nat), fd = (d : Int) ∧ d < K.OPEN_MAX ∧ g < K.OPEN_MAX ∧
      s.files[g]? = some of_ptr.NULL ∧ (∃ e, s.fd_array[d]? = some e ∧ e.in_use = 0) ∧
      s1 = { fd_array := s.fd_array.set d { in_use := 1, global_index := (g : Int) },
             files := s.files.set g (of_ptr.live
               { vnode := env.vn, offset := 0, ref_count := 1, flag := flags }),
             vfs_log := s.vfs_log ++ [vfs_call.vfs_open env.kpath flags mode] } := by
  unfold sys_open at h
  have e1 := K.EINVAL_ne
  have e2 := K.ENOMEM_ne
  have e3 := K.EMFILE_ne
  have e4 := K.ENFILE_ne
  by_cases c1 : Int.land flags K.VALID_FLAGS ≠ flags
  · simp [c1, e1] at h
  by_cases c2 : env.path_alloc = false
  · simp [c1, c2, e2] at h
  by_cases c3 : env.copyinstr ≠ 0
  · simp [c1, c2, c3] at h
  by_cases c4 : env.vfs_open ≠ 0
  · simp [c1, c2, c3, create_open_file, c4] at h
  by_cases c5 : env.of_alloc = false
  · simp [c1, c2, c3, create_open_file, c4, c5, e2] at h
  have hp : env.path_alloc = true := by simpa using c2
  have ho : env.of_alloc = true := by simpa using c5
  have hc : env.copyinstr = 0 := by simpa using c3
  have hv : env.vfs_open = 0 := by simpa using c4
  have hfl : Int.land flags K.VALID_FLAGS = flags := by simpa using c1
  simp only [hfl, hp, ho, hc, hv, create_open_file, insert_open_file, allocate_fd,
    log_call, ne_eq, not_true_eq_false, if_false, Bool.true_eq_false] at h
  cases hi : insert_open_file_loop s.files
      { vnode := env.vn, offset := 0, ref_count := 1, flag := flags } 0 K.OPEN_MAX with
  | error f => simp [hi] at h
  | ok r =>
    cases r with
    | none => simp [hi, e4] at h
    | some r =>
      obtain ⟨files1, g⟩ := r
      simp only [hi] at h
      obtain ⟨hg, hf1, _, hgN⟩ := insert_open_file_loop_some _ _ _ _ _ _ hi
      cases ha : allocate_fd_loop s.fd_array (g : Int) 0 K.OPEN_MAX with
      | error f => simp [ha] at h
      | ok r =>
        obtain ⟨fa, fdi⟩ := r
        simp only [ha] at h
        by_cases hneg : fdi < 0
        · simp [hneg, e3] at h
        · simp only [hneg, if_false, Except.ok.injEq, Prod.mk.injEq, true_and] at h
          obtain ⟨d, e, hd1, hd2, hd3, hd4, _, hdN⟩ :=
            allocate_fd_loop_some _ _ _ _ _ _ ha (by omega)
          refine ⟨d, g, by omega, by omega, by omega, hg, ⟨e, hd2, hd3⟩, ?_⟩
          rw [← h.1, hd4, hf1]

/-! ## `sys_open` -/

theorem lowest_null (files : List of_ptr) (N : Nat)
    (h : ∃ g, g < N ∧ files[g]? = some of_ptr.NULL) :
    ∃ g, g < N ∧ files[g]? = some of_ptr.NULL ∧
      ∀ j, j < g → ∃ p, files[j]? = some p ∧ p ≠ of_ptr.NULL := by
  classical
  refine ⟨Nat.find h, (Nat.find_spec h).1, (Nat.find_spec h).2, ?_⟩
  intro j hj
  have hlt : Nat.find h < files.length := by
    have := (Nat.find_spec h).2
    rcases List.getElem?_eq_some.1 this with ⟨hl, _⟩
    exact hl
  have hjl : j < files.length := lt_trans hj hlt
  refine ⟨files[j], List.getElem?_eq_getElem hjl, ?_⟩
  intro hp
  have hmin := Nat.find_min h hj
  apply hmin
  refine ⟨lt_trans hj (Nat.find_spec h).1, ?_⟩
  rw [List.getElem?_eq_getElem hjl, hp]

theorem lowest_free (fd_array : List file_descriptor) (N : Nat)
    (h : ∃ d, d < N ∧ ∃ e, fd_array[d]? = some e ∧ e.in_use = 0) :
    ∃ d, d < N ∧ (∃ e, fd_array[d]? = some e ∧ e.in_use = 0) ∧
      ∀ j, j < d → ∃ x, fd_array[j]? = some x ∧ x.in_use ≠ 0 := by
  classical
  refine ⟨Nat.find h, (Nat.find_spec h).1, (Nat.find_spec h).2, ?_⟩
  intro j hj
  have hlt : Nat.find h < fd_array.length := by
    obtain ⟨e, he, _⟩ := (Nat.find_spec h).2
    rcases List.getElem?_eq_some.1 he with ⟨hl, _⟩
    exact hl
  have hjl : j < fd_array.length := lt_trans hj hlt
  refine ⟨fd_array[j], List.getElem?_eq_getElem hjl, ?_⟩
  intro hp
  exact Nat.find_min h hj ⟨lt_trans hj (Nat.find_spec h).1, fd_array[j],
    List.getElem?_eq_getElem hjl, hp⟩


/-- C1: when the flags are recognised, the path copy and the storage open
succeed, the global table has an empty slot and the descriptor table has a free
slot, `sys_open` returns 0 with `*retval` the lowest free descriptor `d`; `d`
is then in use and bound to the lowest previously empty global slot `g`, which
holds an object with offset 0, reference count 1 and the requested flags; every
other descriptor slot and every other global slot is unchanged. -/
theorem sys_open_success (K : Consts) (s : kstate) (flags mode : Int) (env : open_env)
    (hflags : Int.land flags K.VALID_FLAGS = flags)
    (hpath : env.path_alloc = true ∧ env.copyinstr = 0)
    (hopen : env.vfs_open = 0 ∧ env.of_alloc = true)
    (hslot : ∃ g, g < K.OPEN_MAX ∧ s.files[g]? = some of_ptr.NULL)
    (hfree : ∃ d, d < K.OPEN_MAX ∧ ∃ e, s.fd_array[d]? = some e ∧ e.in_use = 0) :
    ∃ (d g : Nat) (s1 : kstate),
      sys_open K s flags mode env = Except.ok (s1, 0, (d : Int)) ∧
      d < K.OPEN_MAX ∧ g < K.OPEN_MAX ∧
      (∃ e, s.fd_array[d]? = some e ∧ e.in_use = 0) ∧
      (∀ j, j < d → ∃ x, s.fd_array[j]? = some x ∧ x.in_use ≠ 0) ∧
      s.files[g]? = some of_ptr.NULL ∧
      (∀ j, j < g → ∃ p, s.files[j]? = some p ∧ p ≠ of_ptr.NULL) ∧
      s1.fd_array[d]? = some { in_use := 1, global_index := (g : Int) } ∧
      s1.files[g]? = some (of_ptr.live
        { vnode := env.vn, offset := 0, ref_count := 1, flag := flags }) ∧
      (∀ j, j ≠ d → s1.fd_array[j]? = s.fd_array[j]?) ∧
      (∀ j, j ≠ g → s1.files[j]? = s.files[j]?) := by
  obtain ⟨g, hgN, hg, hglow⟩ := lowest_null s.files K.OPEN_MAX hslot
  obtain ⟨d, hdN, ⟨e, hd, he⟩, hdlow⟩ := lowest_free s.fd_array K.OPEN_MAX hfree
  have hins := insert_open_file_loop_found s.files
    { vnode := env.vn, offset := 0, ref_count := 1, flag := flags } g hg K.OPEN_MAX 0
    (Nat.zero_le g) (by omega) (fun j _ hj => hglow j hj)
  have hall := allocate_fd_loop_found s.fd_array (g : Int) d e hd he K.OPEN_MAX 0
    (Nat.zero_le d) (by omega) (fun j _ hj => hdlow j hj)
  have hgl : g < s.files.length := (List.getElem?_eq_some.1 hg).1
  have hdl : d < s.fd_array.length := (List.getElem?_eq_some.1 hd).1
  have hrun : sys_open K s flags mode env = Except.ok
      ({ fd_array := s.fd_array.set d { in_use := 1, global_index := (g : Int) },
         files := s.files.set g (of_ptr.live
           { vnode := env.vn, offset := 0, ref_count := 1, flag := flags }),
         vfs_log := s.vfs_log ++ [vfs_call.vfs_open env.kpath flags mode] }, 0, (d : Int)) := by
    simp [sys_open, hflags, hpath.1, hpath.2, create_open_file, hopen.1, hopen.2,
      insert_open_file, log_call, hins, allocate_fd, hall]
  refine ⟨d, g, _, hrun, hdN, hgN, ⟨e, hd, he⟩, hdlow, hg, hglow, ?_, ?_, ?_, ?_⟩
  · simp [hdl]
  · simp [hgl]
  · intro j hj
    simp [List.getElem?_set, Ne.symm hj]
  · intro j hj
    simp [List.getElem?_set, Ne.symm hj]

theorem sys_open_success_witness :
    ∃ (d g : Nat) (s1 : kstate),
      sys_open os161 (init_state os161) 0 0 env_ok = Except.ok (s1, 0, (d : Int)) ∧
      d < os161.OPEN_MAX ∧ g < os161.OPEN_MAX ∧
      (∃ e, (init_state os161).fd_array[d]? = some e ∧ e.in_use = 0) ∧
      (∀ j, j < d → ∃ x, (init_state os161).fd_array[j]? = some x ∧ x.in_use ≠ 0) ∧
      (init_state os161).files[g]? = some of_ptr.NULL ∧
      (∀ j, j < g → ∃ p, (init_state os161).files[j]? = some p ∧ p ≠ of_ptr.NULL) ∧
      s1.fd_array[d]? = some { in_use := 1, global_index := (g : Int) } ∧
      s1.files[g]? = some (of_ptr.live
        { vnode := env_ok.vn, offset := 0, ref_count := 1, flag := 0 }) ∧
      (∀ j, j ≠ d → s1.fd_array[j]? = (init_state os161).fd_array[j]?) ∧
      (∀ j, j ≠ g → s1.files[j]? = (init_state os161).files[j]?) :=
  sys_open_success os161 (init_state os161) 0 0 env_ok (by decide) (by decide) (by decide)
    ⟨0, by decide, by decide⟩ ⟨0, by decide, { in_use := 0, global_index := -1 }, by decide, rfl⟩

/-- C9: when `flags` has a bit set that `VALID_FLAGS` does not have,
`sys_open` returns `EINVAL` with `*retval = -1` and leaves the whole state
unchanged (no storage-layer call is logged), whatever the mode, the outcomes of
the collaborators and the tables. -/
theorem sys_open_unknown_flags (K : Consts) (s : kstate) (flags mode : Int) (env : open_env)
    (h : ∃ i : Nat, flags.testBit i = true ∧ K.VALID_FLAGS.testBit i = false) :
    sys_open K s flags mode env = Except.ok (s, K.EINVAL, -1) := by
  obtain ⟨i, hf, hv⟩ := h
  have hne : Int.land flags K.VALID_FLAGS ≠ flags := by
    intro heq
    have := Int.testBit_land flags K.VALID_FLAGS i
    rw [heq, hf, hv] at this
    simp at this
  simp [sys_open, hne]

theorem sys_open_unknown_flags_witness :
    sys_open os161 full_state 64 0 env_ok = Except.ok (full_state, os161.EINVAL, -1) :=
  sys_open_unknown_flags os161 full_state 64 0 env_ok ⟨6, by decide, by decide⟩

/-- C2 (evaluation at the failing input): in the reachable state `full_state`,
where no descriptor is free and global slot 1 is `NULL`, `sys_open` with valid
flags and a successful storage open returns `EMFILE` and leaves the descriptor
table unchanged, but global slot 1 is not `NULL` afterwards: it still holds the
pointer to the object that was passed to `kfree`. -/
theorem sys_open_EMFILE_keeps_entry :
    Reachable os161 full_state ∧
    full_state.files[1]? = some of_ptr.NULL ∧
    sys_open os161 full_state 0 0 env_ok = Except.ok
      ({ fd_array := full_state.fd_array,
         files := of_ptr.live { vnode := 7, offset := 0, ref_count := 128, flag := 0 }
           :: of_ptr.freed :: List.replicate 126 of_ptr.NULL,
         vfs_log := [vfs_call.vfs_open [102] 0 0, vfs_call.vfs_open [102] 0 0,
           vfs_call.vfs_close 7] }, os161.EMFILE, -1) :=
  ⟨run_reachable os161 fill_script _ _ Reachable.init full_state_run, by decide, by decide⟩

/-! ## `sys_close` and `sys_dup2` -/

/-- C3 (evaluation at the failing input): the state `double_close_state`,
reached from the initialised tables by `open`, `dup2(0, 1)`, `close(0)`,
`close(0)`, has descriptor 1 in use with global index 0 while global slot 0 is
`NULL`. -/
theorem double_close_dangling_descriptor :
    Reachable os161 double_close_state ∧
    double_close_state.fd_array[1]? = some { in_use := 1, global_index := 0 } ∧
    double_close_state.files[0]? = some of_ptr.NULL :=
  ⟨run_reachable os161 double_close_script _ _ Reachable.init double_close_run,
    by decide, by decide⟩

/-- The descriptor is valid for `fd_check`: in range, in use, bound to the
in-range global index `G`, whose slot holds the non-`NULL` pointer `p`. -/
theorem fd_check_valid (K : Consts) (s : kstate) (fd : Int) (d : file_descriptor) (G : Nat)
    (p : of_ptr) (h0 : 0 ≤ fd) (h1 : fd < (K.OPEN_MAX : Int))
    (hd : s.fd_array[fd.toNat]? = some d) (huse : d.in_use ≠ 0)
    (hgi : d.global_index = (G : Int)) (hG : G < K.OPEN_MAX)
    (hp : s.files[G]? = some p) (hnn : p ≠ of_ptr.NULL) :
    fd_check K s fd = Except.ok (G : Int) := by
  have hG' : ¬ ((K.OPEN_MAX : Int) ≤ (G : Int)) := by omega
  cases p with
  | NULL => exact absurd rfl hnn
  | live o => simp [fd_check, not_lt.2 h0, not_le.2 h1, hd, huse, hgi, hG', hp]
  | freed => simp [fd_check, not_lt.2 h0, not_le.2 h1, hd, huse, hgi, hG', hp]

/-- What `sys_close` does on a descriptor bound to a live object: it logs
`vfs_close`, decrements the reference count, and only when the count reaches
zero clears the global slot and the descriptor. -/
theorem sys_close_live (K : Consts) (s : kstate) (fd : Int) (d : file_descriptor) (G : Nat)
    (of : open_file) (h0 : 0 ≤ fd) (h1 : fd < (K.OPEN_MAX : Int))
    (hd : s.fd_array[fd.toNat]? = some d) (huse : d.in_use ≠ 0)
    (hgi : d.global_index = (G : Int)) (hG : G < K.OPEN_MAX)
    (hp : s.files[G]? = some (of_ptr.live of)) :
    sys_close K s fd = Except.ok
      (if to_int (of.ref_count - 1) = 0 then
        { fd_array := s.fd_array.set fd.toNat { in_use := 0, global_index := -1 },
          files := s.files.set G of_ptr.NULL,
          vfs_log := s.vfs_log ++ [vfs_call.vfs_close of.vnode] }
       else
        { fd_array := s.fd_array,
          files := s.files.set G (of_ptr.live { of with ref_count := to_int (of.ref_count - 1) }),
          vfs_log := s.vfs_log ++ [vfs_call.vfs_close of.vnode] }, 0) := by
  have hc := fd_check_valid K s fd d G (of_ptr.live of) h0 h1 hd huse hgi hG hp (by simp)
  by_cases hz : to_int (of.ref_count - 1) = 0
  · simp [sys_close, hc, hp, hz, log_call]
  · simp [sys_close, hc, hp, hz, log_call]

/-- What the tail of `sys_dup2` does when the source descriptor exists and the
global slot holds a live object. -/
theorem dup2_bind_live (s : kstate) (old_fd new_fd : Int) (G : Nat) (da : file_descriptor)
    (of : open_file) (hda : s.fd_array[old_fd.toNat]? = some da)
    (hp : s.files[G]? = some (of_ptr.live of)) :
    dup2_bind s old_fd new_fd (G : Int) = Except.ok
      ({ fd_array := s.fd_array.set new_fd.toNat da,
         files := s.files.set G
           (of_ptr.live { of with ref_count := to_int (of.ref_count + 1) }),
         vfs_log := s.vfs_log }, 0, new_fd) := by
  simp [dup2_bind, hda, incr_ref_count, hp]

/-- C6: for a descriptor that is out of range or not in use, `sys_close`
returns `EBADF` and leaves the whole state (descriptor table, global table,
every object, and the log of storage-layer calls) unchanged. -/
theorem sys_close_bad_descriptor (K : Consts) (s : kstate) (fd : Int)
    (h : fd < 0 ∨ fd ≥ (K.OPEN_MAX : Int) ∨
      ∃ d, s.fd_array[fd.toNat]? = some d ∧ d.in_use = 0) :
    sys_close K s fd = Except.ok (s, K.EBADF) := by
  have hc : fd_check K s fd = Except.ok (-1) := by
    unfold fd_check
    by_cases hr : fd < 0 ∨ fd ≥ (K.OPEN_MAX : Int)
    · simp [hr]
    · rcases h with h | h | ⟨d, hd, hu⟩
      · exact absurd (Or.inl h) hr
      · exact absurd (Or.inr h) hr
      · simp [hr, hd, hu]
  simp [sys_close, hc]



theorem sys_close_bad_descriptor_witness :
    sys_close os161 (init_state os161) 5 = Except.ok (init_state os161, os161.EBADF) ∧
    sys_close os161 full_state 128 = Except.ok (full_state, os161.EBADF) ∧
    sys_close os161 full_state (-1) = Except.ok (full_state, os161.EBADF) :=
  ⟨sys_close_bad_descriptor os161 (init_state os161) 5
      (Or.inr (Or.inr ⟨{ in_use := 0, global_index := -1 }, by decide, rfl⟩)),
    sys_close_bad_descriptor os161 full_state 128 (Or.inr (Or.inl (by decide))),
    sys_close_bad_descriptor os161 full_state (-1) (Or.inl (by decide))⟩

/-- C8: for a valid descriptor (in range, in use, bound to a non-empty global
slot), `sys_dup2 fd fd` returns 0 with `*retval = fd` and leaves the whole
state unchanged. -/
theorem sys_dup2_same (K : Consts) (s : kstate) (fd : Int) (d : file_descriptor) (G : Nat)
    (p : of_ptr) (h0 : 0 ≤ fd) (h1 : fd < (K.OPEN_MAX : Int))
    (hd : s.fd_array[fd.toNat]? = some d) (huse : d.in_use ≠ 0)
    (hgi : d.global_index = (G : Int)) (hG : G < K.OPEN_MAX)
    (hp : s.files[G]? = some p) (hnn : p ≠ of_ptr.NULL) :
    sys_dup2 K s fd fd = Except.ok (s, 0, fd) := by
  have hc := fd_check_valid K s fd d G p h0 h1 hd huse hgi hG hp hnn
  have hne : ¬ ((G : Int) = -1) := by omega
  simp [sys_dup2, not_lt.2 h0, not_le.2 h1, hc, hne]



theorem sys_dup2_same_witness :
    sys_dup2 os161 full_state 3 3 = Except.ok (full_state, 0, 3) :=
  sys_dup2_same os161 full_state 3 { in_use := 1, global_index := 0 } 0
    (of_ptr.live { vnode := 7, offset := 0, ref_count := 128, flag := 0 })
    (by decide) (by decide) (by decide) (by decide) rfl (by decide) (by decide)
    (by simp)

/-- C5: after a `sys_open` that returned 0 with descriptor `fd`, the descriptor
is bound to a global slot `g` holding an object with reference count 1 on the
node the storage layer returned.  In that state, and in every later state in
which `fd` is still bound to `g` and the object still has reference count 1
(no duplicate was made), `sys_close fd` returns 0, leaves slot `g` `NULL` and
the descriptor free (`in_use = 0`, `global_index = -1`), and calls `vfs_close`
on the node. -/
theorem open_then_close_releases (K : Consts) (s s1 : kstate) (flags mode : Int)
    (env : open_env) (fd : Int) (h : sys_open K s flags mode env = Except.ok (s1, 0, fd)) :
    ∃ g : Nat,
      s1.fd_array[fd.toNat]? = some { in_use := 1, global_index := (g : Int) } ∧
      s1.files[g]? = some (of_ptr.live
        { vnode := env.vn, offset := 0, ref_count := 1, flag := flags }) ∧
      ∀ (s2 : kstate) (of : open_file),
        s2.fd_array[fd.toNat]? = some { in_use := 1, global_index := (g : Int) } →
        s2.files[g]? = some (of_ptr.live of) → of.ref_count = 1 →
        ∃ s3 : kstate, sys_close K s2 fd = Except.ok (s3, 0) ∧
          s3.files[g]? = some of_ptr.NULL ∧
          s3.fd_array[fd.toNat]? = some { in_use := 0, global_index := -1 } ∧
          s3.vfs_log = s2.vfs_log ++ [vfs_call.vfs_close of.vnode] := by
  obtain ⟨d, g, hfd, hdN, hgN, hg, ⟨e, hd, _⟩, hs1⟩ := sys_open_ok_inv K s s1 flags mode env fd h
  have hdl : d < s.fd_array.length := (List.getElem?_eq_some.1 hd).1
  have hgl : g < s.files.length := (List.getElem?_eq_some.1 hg).1
  subst hfd
  refine ⟨g, ?_, ?_, ?_⟩
  · simp [hs1, hdl]
  · simp [hs1, hgl]
  · intro s2 of hb hl hrc
    have hcl := sys_close_live K s2 (d : Int) { in_use := 1, global_index := (g : Int) } g of
      (by omega) (by omega) hb (by simp) rfl hgN hl
    have hz : to_int (of.ref_count - 1) = 0 := by rw [hrc]; decide
    rw [if_pos hz] at hcl
    have hdl2 : d < s2.fd_array.length := by
      have := (List.getElem?_eq_some.1 hb).1
      simpa using this
    have hgl2 : g < s2.files.length := (List.getElem?_eq_some.1 hl).1
    refine ⟨_, hcl, ?_, ?_, rfl⟩
    · simp [hgl2]
    · simp [hdl2]

theorem open_then_close_releases_witness :
    ∃ g : Nat,
      one_file_state.fd_array[(0 : Int).toNat]? = some { in_use := 1, global_index := (g : Int) } ∧
      one_file_state.files[g]? = some (of_ptr.live
        { vnode := env_ok.vn, offset := 0, ref_count := 1, flag := 0 }) ∧
      ∀ (s2 : kstate) (of : open_file),
        s2.fd_array[(0 : Int).toNat]? = some { in_use := 1, global_index := (g : Int) } →
        s2.files[g]? = some (of_ptr.live of) → of.ref_count = 1 →
        ∃ s3 : kstate, sys_close os161 s2 0 = Except.ok (s3, 0) ∧
          s3.files[g]? = some of_ptr.NULL ∧
          s3.fd_array[(0 : Int).toNat]? = some { in_use := 0, global_index := -1 } ∧
          s3.vfs_log = s2.vfs_log ++ [vfs_call.vfs_close of.vnode] :=
  open_then_close_releases os161 (init_state os161) one_file_state 0 0 env_ok 0 (by decide)

/-- C4: let `a` be bound to the live object `of` at global index `G` (its
reference count a nonzero `int`) and let `b ≠ a` be an in-range descriptor that
is not in use.  After a `sys_dup2 a b` that returns 0, `*retval` is `b`,
`sys_close a` returns 0, and afterwards `fd_check b` returns `G` and slot `G`
still holds the object, with the offset (and every other field) it had before
the two calls. -/
theorem dup2_then_close_source (K : Consts) (s s1 : kstate) (a b retval : Int)
    (da db : file_descriptor) (G : Nat) (of : open_file)
    (ha0 : 0 ≤ a) (ha1 : a < (K.OPEN_MAX : Int)) (hb0 : 0 ≤ b) (hb1 : b < (K.OPEN_MAX : Int))
    (hab : b ≠ a)
    (hda : s.fd_array[a.toNat]? = some da) (huse : da.in_use ≠ 0)
    (hgi : da.global_index = (G : Int)) (hG : G < K.OPEN_MAX)
    (hp : s.files[G]? = some (of_ptr.live of))
    (hrc : of.ref_count ≠ 0) (hint : -2 ^ 31 ≤ of.ref_count ∧ of.ref_count < 2 ^ 31)
    (hdb : s.fd_array[b.toNat]? = some db) (hfree : db.in_use = 0)
    (hdup : sys_dup2 K s a b = Except.ok (s1, 0, retval)) :
    retval = b ∧
    ∃ s2 : kstate, sys_close K s1 a = Except.ok (s2, 0) ∧
      fd_check K s2 b = Except.ok (G : Int) ∧
      s2.files[G]? = some (of_ptr.live of) := by
  have hc := fd_check_valid K s a da G (of_ptr.live of) ha0 ha1 hda huse hgi hG hp (by simp)
  have hne : ¬ ((G : Int) = -1) := by omega
  have hab' : ¬ (a = b) := fun h => hab h.symm
  have hnat : a.toNat ≠ b.toNat := by omega
  have hal : a.toNat < s.fd_array.length := (List.getElem?_eq_some.1 hda).1
  have hbl : b.toNat < s.fd_array.length := (List.getElem?_eq_some.1 hdb).1
  have hGl : G < s.files.length := (List.getElem?_eq_some.1 hp).1
  have hbad : fd_check K s b = Except.ok (-1) := by
    simp [fd_check, not_lt.2 hb0, not_le.2 hb1, hdb, hfree]
  unfold sys_dup2 at hdup
  simp only [not_lt.2 ha0, not_le.2 ha1, not_lt.2 hb0, not_le.2 hb1, ge_iff_le, or_self,
    if_false, hc, hne, hab', hdb] at hdup
  by_cases hgb : db.global_index ≠ -1
  · have e := K.EBADF_ne
    simp [hgb, sys_close, hbad, e] at hdup
  · rw [if_neg hgb, dup2_bind_live s a b G da of hda hp] at hdup
    simp only [Except.ok.injEq, Prod.mk.injEq, true_and] at hdup
    obtain ⟨hs1, hrv⟩ := hdup
    refine ⟨hrv.symm, ?_⟩
    have hda1 : s1.fd_array[a.toNat]? = some da := by
      rw [← hs1]; simp [List.getElem?_set, Ne.symm hnat, hda]
    have hp1 : s1.files[G]? = some (of_ptr.live
        { of with ref_count := to_int (of.ref_count + 1) }) := by
      rw [← hs1]; simp [hGl]
    have hcl := sys_close_live K s1 a da G _ ha0 ha1 hda1 huse hgi hG hp1
    have hback : to_int (to_int (of.ref_count + 1) - 1) = of.ref_count :=
      to_int_incr_decr of.ref_count hint.1 hint.2
    simp only [hback, hrc, if_false] at hcl
    refine ⟨_, hcl, ?_, ?_⟩
    · have hG1 : G < s1.files.length := (List.getElem?_eq_some.1 hp1).1
      apply fd_check_valid K _ b da G (of_ptr.live of) hb0 hb1 _ huse hgi hG _ (by simp)
      · rw [← hs1]; simp [hbl]
      · simp [hG1]
    · have hG1 : G < s1.files.length := (List.getElem?_eq_some.1 hp1).1
      simp [hG1]

theorem dup2_then_close_source_witness :
    (1 : Int) = 1 ∧
    ∃ s2 : kstate, sys_close os161 shared_state 0 = Except.ok (s2, 0) ∧
      fd_check os161 s2 1 = Except.ok ((0 : Nat) : Int) ∧
      s2.files[0]? = some (of_ptr.live { vnode := 7, offset := 0, ref_count := 1, flag := 0 }) :=
  dup2_then_close_source os161 one_file_state shared_state 0 1 1
    { in_use := 1, global_index := 0 } { in_use := 0, global_index := -1 } 0
    { vnode := 7, offset := 0, ref_count := 1, flag := 0 }
    (by decide) (by decide) (by decide) (by decide) (by decide) (by decide) (by decide)
    rfl (by decide) (by decide) (by decide) (by decide) (by decide) rfl (by decide)

/-- C7: let `old_fd` be bound to the live object `of1` at global index `G1`
and let `new_fd ≠ old_fd` be in range and bound to a different live object
`of2` at `G2 ≠ G1` with reference count `r2` (reference counts being `int`
values that the decrement and the increment do not overflow).  Then
`sys_dup2 old_fd new_fd` returns 0 with `*retval = new_fd`; the prior binding
was closed (`vfs_close` was called on its node, and slot `G2` is `NULL` when
`r2 = 1`, else holds the object with count `r2 - 1`); `new_fd` now carries the
descriptor entry of `old_fd`, bound to `G1`; and the object at `G1` has its
reference count one higher. -/
theorem sys_dup2_rebinds (K : Consts) (s : kstate) (old_fd new_fd : Int)
    (d1 d2 : file_descriptor) (G1 G2 : Nat) (of1 of2 : open_file)
    (ho0 : 0 ≤ old_fd) (ho1 : old_fd < (K.OPEN_MAX : Int))
    (hn0 : 0 ≤ new_fd) (hn1 : new_fd < (K.OPEN_MAX : Int)) (hne : new_fd ≠ old_fd)
    (hd1 : s.fd_array[old_fd.toNat]? = some d1) (huse1 : d1.in_use ≠ 0)
    (hgi1 : d1.global_index = (G1 : Int)) (hG1 : G1 < K.OPEN_MAX)
    (hp1 : s.files[G1]? = some (of_ptr.live of1))
    (hd2 : s.fd_array[new_fd.toNat]? = some d2) (huse2 : d2.in_use ≠ 0)
    (hgi2 : d2.global_index = (G2 : Int)) (hG2 : G2 < K.OPEN_MAX)
    (hp2 : s.files[G2]? = some (of_ptr.live of2)) (hG : G2 ≠ G1)
    (hr1 : -2 ^ 31 ≤ of1.ref_count ∧ of1.ref_count < 2 ^ 31 - 1)
    (hr2 : -2 ^ 31 < of2.ref_count ∧ of2.ref_count < 2 ^ 31) :
    ∃ s1 : kstate, sys_dup2 K s old_fd new_fd = Except.ok (s1, 0, new_fd) ∧
      s1.fd_array[new_fd.toNat]? = some d1 ∧
      s1.files[G2]? = some (if of2.ref_count = 1 then of_ptr.NULL
        else of_ptr.live { of2 with ref_count := of2.ref_count - 1 }) ∧
      s1.files[G1]? = some (of_ptr.live { of1 with ref_count := of1.ref_count + 1 }) ∧
      s1.vfs_log = s.vfs_log ++ [vfs_call.vfs_close of2.vnode] := by
  have hc := fd_check_valid K s old_fd d1 G1 (of_ptr.live of1) ho0 ho1 hd1 huse1 hgi1 hG1 hp1
    (by simp)
  have hg1 : ¬ ((G1 : Int) = -1) := by omega
  have hg2 : d2.global_index ≠ -1 := by omega
  have hne' : ¬ (old_fd = new_fd) := fun h => hne h.symm
  have hnat : new_fd.toNat ≠ old_fd.toNat := by omega
  have hl1 : old_fd.toNat < s.fd_array.length := (List.getElem?_eq_some.1 hd1).1
  have hl2 : new_fd.toNat < s.fd_array.length := (List.getElem?_eq_some.1 hd2).1
  have hGl1 : G1 < s.files.length := (List.getElem?_eq_some.1 hp1).1
  have hGl2 : G2 < s.files.length := (List.getElem?_eq_some.1 hp2).1
  have hdec : to_int (of2.ref_count - 1) = of2.ref_count - 1 :=
    to_int_of_range _ (by omega) (by omega)
  have hinc : to_int (of1.ref_count + 1) = of1.ref_count + 1 :=
    to_int_of_range _ (by omega) (by omega)
  have hcl := sys_close_live K s new_fd d2 G2 of2 hn0 hn1 hd2 huse2 hgi2 hG2 hp2
  rw [hdec] at hcl
  unfold sys_dup2
  simp only [not_lt.2 ho0, not_le.2 ho1, not_lt.2 hn0, not_le.2 hn1, ge_iff_le, or_self,
    if_false, hc, hg1, hne', hd2, hg2, ne_eq, not_false_eq_true, if_true, hcl,
    not_true_eq_false]
  by_cases hz : of2.ref_count = 1
  · have hz' : of2.ref_count - 1 = 0 := by omega
    simp only [hz', if_true, hz]
    rw [dup2_bind_live _ old_fd new_fd G1 d1 of1
      (by simp [List.getElem?_set, hnat, hd1])
      (by simp [List.getElem?_set, hG, hp1])]
    refine ⟨_, rfl, ?_, ?_, ?_, ?_⟩
    · simp [hl2]
    · simp [List.getElem?_set, Ne.symm hG, hGl2]
    · simp [hGl1, hinc]
    · simp
  · have hz' : ¬ (of2.ref_count - 1 = 0) := by omega
    simp only [hz', if_false, hz]
    rw [dup2_bind_live _ old_fd new_fd G1 d1 of1 (by simp [hd1])
      (by simp [List.getElem?_set, hG, hp1])]
    refine ⟨_, rfl, ?_, ?_, ?_, ?_⟩
    · simp [hl2]
    · simp [List.getElem?_set, Ne.symm hG, hGl2]
    · simp [hGl1, hinc]
    · simp

theorem sys_dup2_rebinds_witness :
    ∃ s1 : kstate, sys_dup2 os161 two_file_state 0 1 = Except.ok (s1, 0, 1) ∧
      s1.fd_array[(1 : Int).toNat]? = some { in_use := 1, global_index := 0 } ∧
      s1.files[1]? = some of_ptr.NULL ∧
      s1.files[0]? = some (of_ptr.live { vnode := 7, offset := 0, ref_count := 2, flag := 0 }) ∧
      s1.vfs_log = two_file_state.vfs_log ++ [vfs_call.vfs_close 9] :=
  sys_dup2_rebinds os161 two_file_state 0 1
    { in_use := 1, global_index := 0 } { in_use := 1, global_index := 1 } 0 1
    { vnode := 7, offset := 0, ref_count := 1, flag := 0 }
    { vnode := 9, offset := 0, ref_count := 1, flag := 0 }
    (by decide) (by decide) (by decide) (by decide) (by decide) (by decide) (by decide)
    rfl (by decide) (by decide) (by decide) (by decide) rfl (by decide) (by decide)
    (by decide) (by decide) (by decide)

/-! ## `sys_lseek` -/

/-- C10 (evaluation at the failing input): in the reachable state
`far_seek_state` the cursor of descriptor 0 is `2^31`.  `sys_lseek` with
`SEEK_CUR` and offset 0 returns 0, but the position it returns and stores is
`-2^31`, not `2^31 + 0`: the cursor was first converted to `int`. -/
theorem sys_lseek_cur_truncates :
    Reachable os161 far_seek_state ∧
    far_seek_state.files[0]? = some (of_ptr.live
      { vnode := 7, offset := 2147483648, ref_count := 1, flag := 0 }) ∧
    sys_lseek os161 far_seek_state 0 0 os161.SEEK_CUR seek_env = Except.ok
      ({ fd_array := far_seek_state.fd_array,
         files := of_ptr.live { vnode := 7, offset := -2147483648, ref_count := 1, flag := 0 }
           :: List.replicate 127 of_ptr.NULL,
         vfs_log := far_seek_state.vfs_log ++
           [vfs_call.VOP_ISSEEKABLE 7, vfs_call.VOP_STAT 7] }, 0, -2147483648) :=
  ⟨run_reachable os161 far_seek_script _ _ Reachable.init far_seek_run, by decide, by decide⟩

/-! ## Reference counts in reachable states -/

theorem countP_set_add (p : file_descriptor → Bool) :
    ∀ (l : List file_descriptor) (i : Nat) (old x : file_descriptor),
      l[i]? = some old →
      (l.set i x).countP p + (if p old then 1 else 0)
        = l.countP p + (if p x then 1 else 0) := by
  intro l
  induction l with
  | nil => intro i old x h; simp at h
  | cons a t ih =>
    intro i old x h
    cases i with
    | zero =>
      simp at h
      subst h
      simp only [List.set_cons_zero, List.countP_cons]
      omega
    | succ i =>
      simp at h
      have := ih i old x h
      simp only [List.set_cons_succ, List.countP_cons]
      omega

theorem bound_count_le (fd_array : List file_descriptor) (g : Nat) :
    bound_count fd_array g ≤ fd_array.length :=
  List.countP_le_length _

theorem bound_count_pos (fd_array : List file_descriptor) (g i : Nat) (d : file_descriptor)
    (h : fd_array[i]? = some d) (hb : bound_to g d = true) : 1 ≤ bound_count fd_array g := by
  have hmem : d ∈ fd_array := List.mem_iff_getElem?.2 ⟨i, h⟩
  exact (List.countP_pos_iff (p := bound_to g)).2 ⟨d, hmem, hb⟩


theorem table_inv_congr (K : Consts) (s s1 : kstate) (h1 : s1.fd_array = s.fd_array)
    (h2 : s1.files = s.files) (h : table_inv K s) : table_inv K s1 := by
  unfold table_inv at *
  rw [h1, h2]
  exact h

theorem table_inv_set_offset (K : Consts) (s s1 : kstate) (g : Nat) (of : open_file) (x : Int)
    (hg : s.files[g]? = some (of_ptr.live of))
    (h1 : s1.fd_array = s.fd_array)
    (h2 : s1.files = s.files.set g (of_ptr.live { of with offset := x }))
    (h : table_inv K s) : table_inv K s1 := by
  unfold table_inv counts_ok at *
  rw [h1, h2]
  refine ⟨h.1, ?_⟩
  intro g1 of1 hl
  by_cases hgg : g = g1
  · subst hgg
    have hlen : g < s.files.length := (List.getElem?_eq_some.1 hg).1
    simp [hlen] at hl
    have := h.2 g of hg
    rw [← hl]
    exact this
  · simp [List.getElem?_set, hgg] at hl
    exact h.2 g1 of1 hl

theorem sys_rw_inv (K : Consts) (s s1 : kstate) (fd buflen : Int) (flag : uio_rw) (env : rw_env)
    (result retval : Int) (hinv : table_inv K s)
    (h : sys_rw K s fd buflen flag env = Except.ok (s1, result, retval)) : table_inv K s1 := by
  unfold sys_rw at h
  split at h
  · simp at h
  · rename_i gi hc
    split at h
    · simp at h; rw [← h.1]; exact hinv
    · split at h
      · simp at h
      · simp at h
      · simp at h
      · rename_i of hp
        split at h
        · simp at h; rw [← h.1]; exact hinv
        · split at h
          · simp at h
          · split at h
            · simp at h; rw [← h.1]; exact hinv
            · simp only at h
              split at h
              · simp at h
                exact table_inv_congr K s s1 (by rw [← h.1]; rfl) (by rw [← h.1]; rfl) hinv
              · simp at h
                exact table_inv_set_offset K s s1 gi.toNat of env.uio_offset hp
                  (by rw [← h.1]; rfl) (by rw [← h.1]; rfl) hinv


theorem bound_count_set (l : List file_descriptor) (g i : Nat) (old x : file_descriptor)
    (h : l[i]? = some old) :
    bound_count (l.set i x) g + (if bound_to g old then 1 else 0)
      = bound_count l g + (if bound_to g x then 1 else 0) :=
  countP_set_add (bound_to g) l i old x h

theorem bound_to_free (g : Nat) : bound_to g { in_use := 0, global_index := -1 } = false := by
  simp [bound_to]

/-- A descriptor for which `fd_check` returns a global index other than `-1`
is in range, in use, and bound to that in-range index, whose slot is not
`NULL`. -/
theorem fd_check_ok_inv (K : Consts) (s : kstate) (fd gi : Int)
    (h : fd_check K s fd = Except.ok gi) (hgi : gi ≠ -1) :
    0 ≤ fd ∧ fd < (K.OPEN_MAX : Int) ∧ 0 ≤ gi ∧ gi < (K.OPEN_MAX : Int) ∧
    (∃ d, s.fd_array[fd.toNat]? = some d ∧ d.in_use ≠ 0 ∧ d.global_index = gi) ∧
    (∃ p, s.files[gi.toNat]? = some p ∧ p ≠ of_ptr.NULL) := by
  unfold fd_check at h
  split at h
  · simp at h; omega
  · rename_i hr
    split at h
    · simp at h
    · rename_i d hd
      split at h
      · simp at h; omega
      · rename_i hu
        split at h
        · simp at h
        · rename_i hg
          split at h
          · simp at h
          · simp at h; omega
          · rename_i p hnn hp
            simp at h
            subst h
            exact ⟨by omega, by omega, by omega, by omega, ⟨d, hd, hu, rfl⟩, ⟨p, hp, hnn⟩⟩


theorem counts_ok_close_zero (fa : List file_descriptor) (files : List of_ptr) (i g : Nat)
    (d : file_descriptor) (h : counts_ok fa files) (hd : fa[i]? = some d)
    (hg : d.global_index = (g : Int)) :
    counts_ok (fa.set i { in_use := 0, global_index := -1 }) (files.set g of_ptr.NULL) := by
  intro g1 of1 hl
  by_cases hgg : g = g1
  · subst hgg
    by_cases hlen : g < files.length
    · simp [hlen] at hl
    · have : (files.set g of_ptr.NULL)[g]? = none :=
        List.getElem?_eq_none (by simp; omega)
      rw [this] at hl
      simp at hl
  · simp [List.getElem?_set, hgg] at hl
    have hb := bound_count_set fa g1 i d { in_use := 0, global_index := -1 } hd
    have hnb : bound_to g1 d = false := by
      simp [bound_to, hg]
      intro _
      omega
    rw [bound_to_free, hnb] at hb
    simp at hb
    rw [hb]
    exact h g1 of1 hl

theorem counts_ok_close_dec (fa : List file_descriptor) (files : List of_ptr) (g : Nat)
    (of : open_file) (h : counts_ok fa files) (hp : files[g]? = some (of_ptr.live of))
    (hnz : of.ref_count - 1 ≠ 0) :
    counts_ok fa (files.set g (of_ptr.live { of with ref_count := of.ref_count - 1 })) := by
  intro g1 of1 hl
  by_cases hgg : g = g1
  · subst hgg
    have hlen : g < files.length := (List.getElem?_eq_some.1 hp).1
    simp [hlen] at hl
    have := h g of hp
    rw [← hl]
    simp only
    omega
  · simp [List.getElem?_set, hgg] at hl
    exact h g1 of1 hl

theorem counts_ok_clear_unbound (fa : List file_descriptor) (files : List of_ptr) (i : Nat)
    (dn : file_descriptor) (h : counts_ok fa files) (hd : fa[i]? = some dn)
    (hfree : dn.global_index = -1) :
    counts_ok (fa.set i { in_use := 0, global_index := -1 }) files := by
  intro g1 of1 hl
  have hb := bound_count_set fa g1 i dn { in_use := 0, global_index := -1 } hd
  have hnb : bound_to g1 dn = false := by
    simp [bound_to, hfree]
  rw [bound_to_free, hnb] at hb
  simp at hb
  rw [hb]
  exact h g1 of1 hl

theorem counts_ok_close_dec_clear (fa : List file_descriptor) (files : List of_ptr) (i g : Nat)
    (dn : file_descriptor) (of : open_file) (h : counts_ok fa files)
    (hd : fa[i]? = some dn) (hu : dn.in_use ≠ 0) (hg : dn.global_index = (g : Int))
    (hp : files[g]? = some (of_ptr.live of)) (hnz : of.ref_count - 1 ≠ 0) :
    counts_ok (fa.set i { in_use := 0, global_index := -1 })
      (files.set g (of_ptr.live { of with ref_count := of.ref_count - 1 })) := by
  intro g1 of1 hl
  have hb := bound_count_set fa g1 i dn { in_use := 0, global_index := -1 } hd
  rw [bound_to_free] at hb
  by_cases hgg : g = g1
  · subst hgg
    have hlen : g < files.length := (List.getElem?_eq_some.1 hp).1
    simp [hlen] at hl
    have hbd : bound_to g dn = true := by simp [bound_to, hg, hu]
    rw [hbd] at hb
    simp at hb
    have := h g of hp
    rw [← hl]
    simp only
    omega
  · simp [List.getElem?_set, hgg] at hl
    have hnb : bound_to g1 dn = false := by
      simp [bound_to, hg]
      intro _
      omega
    rw [hnb] at hb
    simp at hb
    rw [hb]
    exact h g1 of1 hl

theorem counts_ok_bind (fa : List file_descriptor) (files : List of_ptr) (o n g : Nat)
    (d dn : file_descriptor) (of : open_file)
    (h : counts_ok (fa.set n { in_use := 0, global_index := -1 }) files)
    (hd : fa[o]? = some d) (hdn : fa[n]? = some dn) (hon : o ≠ n)
    (hu : d.in_use ≠ 0) (hg : d.global_index = (g : Int))
    (hp : files[g]? = some (of_ptr.live of)) :
    counts_ok (fa.set n d)
      (files.set g (of_ptr.live { of with ref_count := of.ref_count + 1 })) := by
  intro g1 of1 hl
  have hb1 := bound_count_set fa g1 n dn { in_use := 0, global_index := -1 } hdn
  have hb2 := bound_count_set fa g1 n dn d hdn
  rw [bound_to_free] at hb1
  simp only [Bool.false_eq_true, if_false, Nat.add_zero] at hb1
  by_cases hgg : g = g1
  · subst hgg
    have hlen : g < files.length := (List.getElem?_eq_some.1 hp).1
    simp [hlen] at hl
    have hbd : bound_to g d = true := by simp [bound_to, hg, hu]
    rw [if_pos hbd] at hb2
    have hpos : 1 ≤ bound_count (fa.set n { in_use := 0, global_index := -1 }) g :=
      bound_count_pos _ g o d (by simp [List.getElem?_set, Ne.symm hon, hd]) hbd
    have := h g of hp
    rw [← hl]
    simp only
    omega
  · simp [List.getElem?_set, hgg] at hl
    have hnb : bound_to g1 d = false := by
      simp [bound_to, hg]
      intro _
      omega
    rw [hnb] at hb2
    simp only [Bool.false_eq_true, if_false, Nat.add_zero] at hb2
    have := h g1 of1 hl
    omega


theorem counts_ok_open (fa : List file_descriptor) (files : List of_ptr) (d g : Nat)
    (e : file_descriptor) (of : open_file) (h : counts_ok fa files)
    (hd : fa[d]? = some e) (he : e.in_use = 0) (hrc : of.ref_count = 1) :
    counts_ok (fa.set d { in_use := 1, global_index := (g : Int) })
      (files.set g (of_ptr.live of)) := by
  intro g1 of1 hl
  by_cases hgg : g = g1
  · subst hgg
    by_cases hlen : g < files.length
    · simp [hlen] at hl
      rw [← hl, hrc]
      omega
    · have : (files.set g (of_ptr.live of))[g]? = none :=
        List.getElem?_eq_none (by simp; omega)
      rw [this] at hl
      simp at hl
  · simp [List.getElem?_set, hgg] at hl
    have hb := bound_count_set fa g1 d e { in_use := 1, global_index := (g : Int) } hd
    have hnb : bound_to g1 e = false := by simp [bound_to, he]
    have hnb2 : bound_to g1 { in_use := 1, global_index := (g : Int) } = false := by
      simp [bound_to]
      omega
    rw [hnb, hnb2] at hb
    simp at hb
    rw [hb]
    exact h g1 of1 hl

theorem counts_ok_freed (fa : List file_descriptor) (files : List of_ptr) (g : Nat)
    (h : counts_ok fa files) (hg : files[g]? = some of_ptr.NULL) :
    counts_ok fa (files.set g of_ptr.freed) := by
  intro g1 of1 hl
  by_cases hgg : g = g1
  · subst hgg
    have hlen : g < files.length := (List.getElem?_eq_some.1 hg).1
    simp [hlen] at hl
  · simp [List.getElem?_set, hgg] at hl
    exact h g1 of1 hl

theorem sys_open_inv (K : Consts) (s s1 : kstate) (flags mode : Int) (env : open_env)
    (result retval : Int) (hinv : table_inv K s)
    (h : sys_open K s flags mode env = Except.ok (s1, result, retval)) : table_inv K s1 := by
  unfold sys_open at h
  by_cases c1 : Int.land flags K.VALID_FLAGS ≠ flags
  · simp [c1] at h; rw [← h.1]; exact hinv
  by_cases c2 : env.path_alloc = false
  · simp [c1, c2] at h; rw [← h.1]; exact hinv
  by_cases c3 : env.copyinstr ≠ 0
  · simp [c1, c2, c3] at h; rw [← h.1]; exact hinv
  by_cases c4 : env.vfs_open ≠ 0
  · simp [c1, c2, c3, create_open_file, c4] at h; rw [← h.1]; exact hinv
  by_cases c5 : env.of_alloc = false
  · simp [c1, c2, c3, create_open_file, c4, c5] at h; rw [← h.1]; exact hinv
  have hp : env.path_alloc = true := by simpa using c2
  have ho : env.of_alloc = true := by simpa using c5
  have hc : env.copyinstr = 0 := by simpa using c3
  have hv : env.vfs_open = 0 := by simpa using c4
  have hfl : Int.land flags K.VALID_FLAGS = flags := by simpa using c1
  simp only [hfl, hp, ho, hc, hv, create_open_file, insert_open_file, allocate_fd,
    log_call, ne_eq, not_true_eq_false, if_false, Bool.true_eq_false] at h
  cases hi : insert_open_file_loop s.files
      { vnode := env.vn, offset := 0, ref_count := 1, flag := flags } 0 K.OPEN_MAX with
  | error f => simp [hi] at h
  | ok r =>
    cases r with
    | none => simp [hi] at h; rw [← h.1]; exact hinv
    | some r =>
      obtain ⟨files1, g⟩ := r
      simp only [hi] at h
      obtain ⟨hg, hf1, _, hgN⟩ := insert_open_file_loop_some _ _ _ _ _ _ hi
      cases ha : allocate_fd_loop s.fd_array (g : Int) 0 K.OPEN_MAX with
      | error f => simp [ha] at h
      | ok r =>
        obtain ⟨fa, fdi⟩ := r
        simp only [ha] at h
        by_cases hneg : fdi < 0
        · simp only [hneg, if_true, Except.ok.injEq, Prod.mk.injEq] at h
          rw [← h.1]
          refine ⟨hinv.1, ?_⟩
          have hset : (files1.set (g : Int).toNat of_ptr.freed)
              = s.files.set g of_ptr.freed := by
            rw [hf1]; simp
          show counts_ok s.fd_array (files1.set (g : Int).toNat of_ptr.freed)
          rw [hset]
          exact counts_ok_freed _ _ g hinv.2 hg
        · simp only [hneg, if_false, Except.ok.injEq, Prod.mk.injEq] at h
          obtain ⟨d, e, hd1, hd2, hd3, hd4, _, hdN⟩ :=
            allocate_fd_loop_some _ _ _ _ _ _ ha (by omega)
          rw [← h.1, hd4, hf1]
          refine ⟨by simpa using hinv.1, ?_⟩
          exact counts_ok_open _ _ d g e _ hinv.2 hd2 hd3 rfl


/-- The two outcomes of `sys_close`: `EBADF` with the state unchanged, or 0
on a descriptor bound to a live object, with the state of `sys_close_live`. -/
theorem sys_close_ok_cases (K : Consts) (s s1 : kstate) (fd result : Int)
    (h : sys_close K s fd = Except.ok (s1, result)) :
    (s1 = s ∧ result = K.EBADF) ∨
    ∃ (d : file_descriptor) (g : Nat) (of : open_file),
      0 ≤ fd ∧ fd < (K.OPEN_MAX : Int) ∧ s.fd_array[fd.toNat]? = some d ∧ d.in_use ≠ 0 ∧
      d.global_index = (g : Int) ∧ g < K.OPEN_MAX ∧ s.files[g]? = some (of_ptr.live of) ∧
      result = 0 ∧
      s1 = (if to_int (of.ref_count - 1) = 0 then
        { fd_array := s.fd_array.set fd.toNat { in_use := 0, global_index := -1 },
          files := s.files.set g of_ptr.NULL,
          vfs_log := s.vfs_log ++ [vfs_call.vfs_close of.vnode] }
       else
        { fd_array := s.fd_array,
          files := s.files.set g (of_ptr.live { of with ref_count := to_int (of.ref_count - 1) }),
          vfs_log := s.vfs_log ++ [vfs_call.vfs_close of.vnode] }) := by
  cases hc : fd_check K s fd with
  | error f => simp [sys_close, hc] at h
  | ok gi =>
    by_cases hneg : gi < 0
    · left
      simp [sys_close, hc, hneg] at h
      exact ⟨h.1.symm, h.2.symm⟩
    · right
      obtain ⟨h0, h1, hg0, hg1, ⟨d, hd, hu, hdg⟩, ⟨p, hp, hnn⟩⟩ :=
        fd_check_ok_inv K s fd gi hc (by omega)
      have hcast : ((gi.toNat : Nat) : Int) = gi := Int.toNat_of_nonneg hg0
      cases p with
      | NULL => exact absurd rfl hnn
      | freed => simp [sys_close, hc, hneg, hp] at h
      | live of =>
        have hl := sys_close_live K s fd d gi.toNat of h0 h1 hd hu (by omega) (by omega) hp
        rw [hl] at h
        simp only [Except.ok.injEq, Prod.mk.injEq] at h
        exact ⟨d, gi.toNat, of, h0, h1, hd, hu, by omega, by omega, hp, h.2.symm, h.1.symm⟩

theorem ref_count_bound (K : Consts) (s : kstate) (g : Nat) (of : open_file)
    (hinv : table_inv K s) (hp : s.files[g]? = some (of_ptr.live of)) :
    1 ≤ of.ref_count ∧ of.ref_count ≤ ((max 1 K.OPEN_MAX : Nat) : Int) := by
  obtain ⟨h1, h2⟩ := hinv.2 g of hp
  have hle := bound_count_le s.fd_array g
  rw [hinv.1] at hle
  refine ⟨h1, ?_⟩
  rcases h2 with h2 | h2
  · have : (1 : Nat) ≤ max 1 K.OPEN_MAX := le_max_left _ _
    omega
  · have : K.OPEN_MAX ≤ max 1 K.OPEN_MAX := le_max_right _ _
    omega

theorem sys_close_inv (K : Consts) (hK : K.OPEN_MAX + 1 < 2 ^ 31) (s s1 : kstate)
    (fd result : Int) (hinv : table_inv K s)
    (h : sys_close K s fd = Except.ok (s1, result)) : table_inv K s1 := by
  rcases sys_close_ok_cases K s s1 fd result h with ⟨h1, _⟩ | ⟨d, g, of, _, _, hd, hu, hdg, _, hp, _, hs1⟩
  · rw [h1]; exact hinv
  · obtain ⟨hr1, hr2⟩ := ref_count_bound K s g of hinv hp
    have hmaxN : max 1 K.OPEN_MAX + 1 < 2 ^ 31 := by
      rcases le_total 1 K.OPEN_MAX with hh | hh
      · rw [max_eq_right hh]; exact hK
      · rw [max_eq_left hh]; norm_num
    have hmax : ((max 1 K.OPEN_MAX : Nat) : Int) + 1 < 2 ^ 31 := by exact_mod_cast hmaxN
    have hdec : to_int (of.ref_count - 1) = of.ref_count - 1 :=
      to_int_of_range _ (by omega) (by omega)
    rw [hdec] at hs1
    by_cases hz : of.ref_count - 1 = 0
    · rw [if_pos hz] at hs1
      rw [hs1]
      exact ⟨by simpa using hinv.1, counts_ok_close_zero _ _ _ g d hinv.2 hd hdg⟩
    · rw [if_neg hz] at hs1
      rw [hs1]
      exact ⟨hinv.1, counts_ok_close_dec _ _ g of hinv.2 hp hz⟩

theorem sys_lseek_inv (K : Consts) (s s1 : kstate) (fd offset whence : Int) (env : lseek_env)
    (result retval : Int) (hinv : table_inv K s)
    (h : sys_lseek K s fd offset whence env = Except.ok (s1, result, retval)) :
    table_inv K s1 := by
  unfold sys_lseek at h
  split at h
  · simp at h
  · rename_i gi hc
    split at h
    · simp at h; rw [← h.1]; exact hinv
    · split at h
      · simp at h
      · simp at h
      · simp at h
      · rename_i of hp
        have hset : ∀ (position : Int) (q : kstate),
            q.fd_array = s.fd_array →
            q.files = s.files.set gi.toNat (of_ptr.live { of with offset := position }) →
            table_inv K q :=
          fun position q h1 h2 => table_inv_set_offset K s q gi.toNat of position hp h1 h2 hinv
        have hsame : ∀ q : kstate, q.fd_array = s.fd_array → q.files = s.files → table_inv K q :=
          fun q h1 h2 => table_inv_congr K s q h1 h2 hinv
        simp only at h
        split at h
        · simp at h; exact hsame s1 (by rw [← h.1]; rfl) (by rw [← h.1]; rfl)
        · split at h
          · simp at h; exact hsame s1 (by rw [← h.1]; rfl) (by rw [← h.1]; rfl)
          · split at h
            · split at h
              · simp at h; exact hsame s1 (by rw [← h.1]; rfl) (by rw [← h.1]; rfl)
              · simp at h; exact hset _ s1 (by rw [← h.1]; rfl) (by rw [← h.1]; rfl)
            · split at h
              · split at h
                · simp at h; exact hsame s1 (by rw [← h.1]; rfl) (by rw [← h.1]; rfl)
                · simp at h; exact hset _ s1 (by rw [← h.1]; rfl) (by rw [← h.1]; rfl)
              · split at h
                · split at h
                  · simp at h; exact hsame s1 (by rw [← h.1]; rfl) (by rw [← h.1]; rfl)
                  · simp at h; exact hset _ s1 (by rw [← h.1]; rfl) (by rw [← h.1]; rfl)
                · simp at h; exact hsame s1 (by rw [← h.1]; rfl) (by rw [← h.1]; rfl)


theorem dup2_bind_ok_inv (s s1 : kstate) (old_fd new_fd gi result retval : Int)
    (h : dup2_bind s old_fd new_fd gi = Except.ok (s1, result, retval)) :
    ∃ (d : file_descriptor) (of : open_file),
      s.fd_array[old_fd.toNat]? = some d ∧ s.files[gi.toNat]? = some (of_ptr.live of) ∧
      s1 = { fd_array := s.fd_array.set new_fd.toNat d,
             files := s.files.set gi.toNat
               (of_ptr.live { of with ref_count := to_int (of.ref_count + 1) }),
             vfs_log := s.vfs_log } := by
  unfold dup2_bind at h
  cases hd : s.fd_array[old_fd.toNat]? with
  | none => simp [hd] at h
  | some d =>
    simp only [hd, incr_ref_count] at h
    cases hp : s.files[gi.toNat]? with
    | none => simp [hp] at h
    | some p =>
      cases p with
      | NULL => simp [hp] at h
      | freed => simp [hp] at h
      | live of =>
        simp [hp] at h
        exact ⟨d, of, rfl, rfl, h.1.symm⟩

/-- The tail of `sys_dup2` keeps the invariant when it holds of the tables with
the target descriptor cleared and the source is bound to the slot whose count
is incremented. -/
theorem dup2_bind_inv (K : Consts) (hK : K.OPEN_MAX + 1 < 2 ^ 31) (s s1 : kstate)
    (old_fd new_fd gi result retval : Int) (d dn : file_descriptor)
    (hinv : table_inv K s)
    (hclear : counts_ok (s.fd_array.set new_fd.toNat { in_use := 0, global_index := -1 }) s.files)
    (hd : s.fd_array[old_fd.toNat]? = some d) (hdn : s.fd_array[new_fd.toNat]? = some dn)
    (hon : old_fd.toNat ≠ new_fd.toNat) (hu : d.in_use ≠ 0) (hg : d.global_index = gi)
    (hg0 : 0 ≤ gi)
    (h : dup2_bind s old_fd new_fd gi = Except.ok (s1, result, retval)) : table_inv K s1 := by
  obtain ⟨d1, of, hd1, hp, hs1⟩ := dup2_bind_ok_inv s s1 old_fd new_fd gi result retval h
  rw [hd] at hd1
  simp only [Option.some.injEq] at hd1
  subst hd1
  obtain ⟨hr1, hr2⟩ := ref_count_bound K s gi.toNat of hinv hp
  have hmaxN : max 1 K.OPEN_MAX + 1 < 2 ^ 31 := by
    rcases le_total 1 K.OPEN_MAX with hh | hh
    · rw [max_eq_right hh]; exact hK
    · rw [max_eq_left hh]; norm_num
  have hmax : ((max 1 K.OPEN_MAX : Nat) : Int) + 1 < 2 ^ 31 := by exact_mod_cast hmaxN
  have hinc : to_int (of.ref_count + 1) = of.ref_count + 1 :=
    to_int_of_range _ (by omega) (by omega)
  rw [hinc] at hs1
  rw [hs1]
  refine ⟨by simpa using hinv.1, ?_⟩
  exact counts_ok_bind _ _ old_fd.toNat new_fd.toNat gi.toNat d dn of hclear hd hdn hon hu
    (by rw [hg]; omega) hp

theorem sys_dup2_inv (K : Consts) (hK : K.OPEN_MAX + 1 < 2 ^ 31) (s s1 : kstate)
    (old_fd new_fd result retval : Int) (hinv : table_inv K s)
    (h : sys_dup2 K s old_fd new_fd = Except.ok (s1, result, retval)) : table_inv K s1 := by
  unfold sys_dup2 at h
  by_cases hr : old_fd < 0 ∨ old_fd ≥ (K.OPEN_MAX : Int) ∨ new_fd < 0 ∨ new_fd ≥ (K.OPEN_MAX : Int)
  · simp only [hr, if_true, Except.ok.injEq, Prod.mk.injEq] at h
    rw [← h.1]; exact hinv
  simp only [hr, if_false] at h
  cases hc : fd_check K s old_fd with
  | error f => simp [hc] at h
  | ok gi =>
    simp only [hc] at h
    by_cases hgi : gi = -1
    · simp only [hgi, if_true, Except.ok.injEq, Prod.mk.injEq] at h
      rw [← h.1]; exact hinv
    simp only [hgi, if_false] at h
    by_cases hsame : old_fd = new_fd
    · simp only [hsame, if_true, Except.ok.injEq, Prod.mk.injEq] at h
      rw [← h.1]; exact hinv
    simp only [hsame, if_false] at h
    obtain ⟨ho0, ho1, hg0, hg1, ⟨d, hd, hu, hdg⟩, _⟩ := fd_check_ok_inv K s old_fd gi hc hgi
    have hn0 : 0 ≤ new_fd := by omega
    have hon : old_fd.toNat ≠ new_fd.toNat := by omega
    cases hdn : s.fd_array[new_fd.toNat]? with
    | none => simp [hdn] at h
    | some dn =>
      simp only [hdn] at h
      by_cases hfree : dn.global_index ≠ -1
      · rw [if_pos hfree] at h
        cases hcl : sys_close K s new_fd with
        | error f => simp [hcl] at h
        | ok r =>
          obtain ⟨s2, res⟩ := r
          simp only [hcl] at h
          have hinv2 := sys_close_inv K hK s s2 new_fd res hinv hcl
          by_cases hres : res ≠ 0
          · rw [if_pos hres] at h
            simp only [Except.ok.injEq, Prod.mk.injEq] at h
            rw [← h.1]; exact hinv2
          · rw [if_neg hres] at h
            rcases sys_close_ok_cases K s s2 new_fd res hcl with
              ⟨_, hb⟩ | ⟨d2, g2, of2, _, _, hd2, hu2, hdg2, _, hp2, _, hs2⟩
            · exact absurd hb (by
                have := K.EBADF_ne
                intro hx
                rw [hx] at hres
                exact hres this)
            · rw [hdn] at hd2
              simp only [Option.some.injEq] at hd2
              subst hd2
              obtain ⟨hr1, hr2⟩ := ref_count_bound K s g2 of2 hinv hp2
              have hmaxN : max 1 K.OPEN_MAX + 1 < 2 ^ 31 := by
                rcases le_total 1 K.OPEN_MAX with hh | hh
                · rw [max_eq_right hh]; exact hK
                · rw [max_eq_left hh]; norm_num
              have hmax : ((max 1 K.OPEN_MAX : Nat) : Int) + 1 < 2 ^ 31 := by
                exact_mod_cast hmaxN
              have hdec : to_int (of2.ref_count - 1) = of2.ref_count - 1 :=
                to_int_of_range _ (by omega) (by omega)
              rw [hdec] at hs2
              have hnl : new_fd.toNat < s.fd_array.length := (List.getElem?_eq_some.1 hdn).1
              by_cases hz : of2.ref_count - 1 = 0
              · rw [if_pos hz] at hs2
                have hclear : counts_ok
                    (s2.fd_array.set new_fd.toNat { in_use := 0, global_index := -1 })
                    s2.files := by
                  rw [hs2]
                  simp only [List.set_set]
                  exact counts_ok_close_zero _ _ _ g2 dn hinv.2 hdn hdg2
                exact dup2_bind_inv K hK s2 s1 old_fd new_fd gi _ _ d
                  { in_use := 0, global_index := -1 } hinv2 hclear
                  (by rw [hs2]; simp [List.getElem?_set, Ne.symm hon, hd])
                  (by rw [hs2]; simp [hnl])
                  hon hu hdg hg0 h
              · rw [if_neg hz] at hs2
                have hclear : counts_ok
                    (s2.fd_array.set new_fd.toNat { in_use := 0, global_index := -1 })
                    s2.files := by
                  rw [hs2]
                  exact counts_ok_close_dec_clear _ _ _ g2 dn of2 hinv.2 hdn hu2 hdg2 hp2 hz
                exact dup2_bind_inv K hK s2 s1 old_fd new_fd gi _ _ d dn hinv2 hclear
                  (by rw [hs2]; exact hd) (by rw [hs2]; exact hdn) hon hu hdg hg0 h
      · have hfree' : dn.global_index = -1 := by
          by_contra hx
          exact hfree hx
        rw [if_neg hfree] at h
        exact dup2_bind_inv K hK s s1 old_fd new_fd gi _ _ d dn hinv
          (counts_ok_clear_unbound _ _ _ dn hinv.2 hdn hfree') hd hdn hon hu hdg hg0 h


theorem map_ok_inv (x : Except Fault (kstate × Int × Int)) (s1 : kstate) (result : Int)
    (h : (x.map fun r => (r.1, r.2.1)) = Except.ok (s1, result)) :
    ∃ retval, x = Except.ok (s1, result, retval) := by
  cases x with
  | error f => simp [Except.map] at h
  | ok r =>
    obtain ⟨a, b, c⟩ := r
    simp [Except.map] at h
    exact ⟨c, by rw [h.1, h.2]⟩

theorem init_state_inv (K : Consts) : table_inv K (init_state K) := by
  refine ⟨by simp [init_state], ?_⟩
  intro g of hl
  simp [init_state, List.getElem?_replicate] at hl

theorem step_inv (K : Consts) (hK : K.OPEN_MAX + 1 < 2 ^ 31) (s s1 : kstate)
    (hinv : table_inv K s) (hstep : Step K s s1) : table_inv K s1 := by
  obtain ⟨c, result, h⟩ := hstep
  cases c with
  | «open» flags mode env =>
    obtain ⟨rv, h1⟩ := map_ok_inv _ _ _ h
    exact sys_open_inv K s s1 flags mode env result rv hinv h1
  | close fd => exact sys_close_inv K hK s s1 fd result hinv h
  | read fd buflen env =>
    obtain ⟨rv, h1⟩ := map_ok_inv _ _ _ h
    exact sys_rw_inv K s s1 fd buflen uio_rw.UIO_READ env result rv hinv h1
  | write fd buflen env =>
    obtain ⟨rv, h1⟩ := map_ok_inv _ _ _ h
    exact sys_rw_inv K s s1 fd buflen uio_rw.UIO_WRITE env result rv hinv h1
  | lseek fd offset whence env =>
    obtain ⟨rv, h1⟩ := map_ok_inv _ _ _ h
    exact sys_lseek_inv K s s1 fd offset whence env result rv hinv h1
  | dup2 old_fd new_fd =>
    obtain ⟨rv, h1⟩ := map_ok_inv _ _ _ h
    exact sys_dup2_inv K hK s s1 old_fd new_fd result rv hinv h1

theorem reachable_inv (K : Consts) (hK : K.OPEN_MAX + 1 < 2 ^ 31) (s : kstate)
    (h : Reachable K s) : table_inv K s := by
  induction h with
  | init => exact init_state_inv K
  | step s s1 _ hstep ih => exact step_inv K hK s s1 ih hstep

/-- In every reachable state, every live object of the global table has a
reference count between 1 and the capacity of the descriptor table. -/
theorem reachable_ref_count (K : Consts) (hK : K.OPEN_MAX + 1 < 2 ^ 31) (s : kstate)
    (h : Reachable K s) (g : Nat) (of : open_file)
    (hp : s.files[g]? = some (of_ptr.live of)) :
    1 ≤ of.ref_count ∧ of.ref_count ≤ ((max 1 K.OPEN_MAX : Nat) : Int) :=
  ref_count_bound K s g of (reachable_inv K hK s h) hp

theorem reachable_ref_count_witness :
    (1 : Int) ≤ 128 ∧ (128 : Int) ≤ ((max 1 os161.OPEN_MAX : Nat) : Int) :=
  reachable_ref_count os161 (by decide) full_state
    (run_reachable os161 fill_script _ _ Reachable.init full_state_run) 0
    { vnode := 7, offset := 0, ref_count := 128, flag := 0 } (by decide)

/-! ## Further runs -/

theorem half_closed_run :
    run os161 half_closed_script (init_state os161) = Except.ok half_closed_state := by
  decide

theorem neg_seek_run :
    run os161 neg_seek_script (init_state os161) = Except.ok neg_seek_state := by
  decide

/-- C17: on a global table of `OPEN_MAX` slots, `insert_open_file` returns 0
with `*global_index` the smallest index whose slot was `NULL`, stores the
object there and leaves every other slot (and the rest of the state)
unchanged; when no slot is `NULL` it returns `ENFILE`, leaves the table
unchanged and itself calls `vfs_close` on the object's node; and it returns
`ENFILE` if and only if no slot is `NULL`. -/
theorem insert_open_file_first_empty (K : Consts) (s : kstate) (of : open_file)
    (hlen : s.files.length = K.OPEN_MAX) :
    ((∃ g, g < K.OPEN_MAX ∧ s.files[g]? = some of_ptr.NULL) →
      ∃ g, g < K.OPEN_MAX ∧ s.files[g]? = some of_ptr.NULL ∧
        (∀ j, j < g → ∃ p, s.files[j]? = some p ∧ p ≠ of_ptr.NULL) ∧
        insert_open_file K s of = Except.ok
          ({ s with files := s.files.set g (of_ptr.live of) }, 0, some (g : Int)) ∧
        (s.files.set g (of_ptr.live of))[g]? = some (of_ptr.live of) ∧
        ∀ j, j ≠ g → (s.files.set g (of_ptr.live of))[j]? = s.files[j]?) ∧
    ((¬ ∃ g, g < K.OPEN_MAX ∧ s.files[g]? = some of_ptr.NULL) →
      insert_open_file K s of = Except.ok
        ({ s with vfs_log := s.vfs_log ++ [vfs_call.vfs_close of.vnode] }, K.ENFILE, none)) ∧
    ((∃ (s1 : kstate) (gi : Option Int),
        insert_open_file K s of = Except.ok (s1, K.ENFILE, gi)) ↔
      ¬ ∃ g, g < K.OPEN_MAX ∧ s.files[g]? = some of_ptr.NULL) := by
  have hA : (∃ g, g < K.OPEN_MAX ∧ s.files[g]? = some of_ptr.NULL) →
      ∃ g, g < K.OPEN_MAX ∧ s.files[g]? = some of_ptr.NULL ∧
        (∀ j, j < g → ∃ p, s.files[j]? = some p ∧ p ≠ of_ptr.NULL) ∧
        insert_open_file K s of = Except.ok
          ({ s with files := s.files.set g (of_ptr.live of) }, 0, some (g : Int)) ∧
        (s.files.set g (of_ptr.live of))[g]? = some (of_ptr.live of) ∧
        ∀ j, j ≠ g → (s.files.set g (of_ptr.live of))[j]? = s.files[j]? := by
    intro h
    obtain ⟨g, hgN, hg, hlow⟩ := lowest_null s.files K.OPEN_MAX h
    have hins := insert_open_file_loop_found s.files of g hg K.OPEN_MAX 0
      (Nat.zero_le g) (by omega) (fun j _ hj => hlow j hj)
    have hgl : g < s.files.length := (List.getElem?_eq_some.1 hg).1
    refine ⟨g, hgN, hg, hlow, ?_, ?_, ?_⟩
    · simp [insert_open_file, hins]
    · simp [hgl]
    · intro j hj
      simp [List.getElem?_set, Ne.symm hj]
  have hB : (¬ ∃ g, g < K.OPEN_MAX ∧ s.files[g]? = some of_ptr.NULL) →
      insert_open_file K s of = Except.ok
        ({ s with vfs_log := s.vfs_log ++ [vfs_call.vfs_close of.vnode] }, K.ENFILE, none) := by
    intro h
    have hfull := insert_open_file_loop_full s.files of K.OPEN_MAX 0 (by
      intro j _ hj
      have hjl : j < s.files.length := by omega
      refine ⟨s.files[j], List.getElem?_eq_getElem hjl, ?_⟩
      intro hp
      exact h ⟨j, by omega, by rw [List.getElem?_eq_getElem hjl, hp]⟩)
    simp [insert_open_file, hfull, log_call]
  refine ⟨hA, hB, ?_⟩
  constructor
  · rintro ⟨s1, gi, hr⟩ hex
    obtain ⟨g, _, _, _, hok, _⟩ := hA hex
    rw [hok] at hr
    simp only [Except.ok.injEq, Prod.mk.injEq] at hr
    exact K.ENFILE_ne hr.2.1.symm
  · intro h
    exact ⟨_, _, hB h⟩

theorem insert_open_file_first_empty_witness :
    ∃ g, g < os161.OPEN_MAX ∧ one_file_state.files[g]? = some of_ptr.NULL ∧
      (∀ j, j < g → ∃ p, one_file_state.files[j]? = some p ∧ p ≠ of_ptr.NULL) ∧
      insert_open_file os161 one_file_state
          { vnode := 9, offset := 0, ref_count := 1, flag := 0 } = Except.ok
        ({ one_file_state with
            files := one_file_state.files.set g
              (of_ptr.live { vnode := 9, offset := 0, ref_count := 1, flag := 0 }) },
          0, some (g : Int)) ∧
      (one_file_state.files.set g
          (of_ptr.live { vnode := 9, offset := 0, ref_count := 1, flag := 0 }))[g]?
        = some (of_ptr.live { vnode := 9, offset := 0, ref_count := 1, flag := 0 }) ∧
      ∀ j, j ≠ g →
        (one_file_state.files.set g
          (of_ptr.live { vnode := 9, offset := 0, ref_count := 1, flag := 0 }))[j]?
          = one_file_state.files[j]? :=
  (insert_open_file_first_empty os161 one_file_state
    { vnode := 9, offset := 0, ref_count := 1, flag := 0 } (by decide)).1
    ⟨1, by decide, by decide⟩

/-! ## `sys_rw` -/

/-- C13: for a descriptor bound to a live object and any one call of `sys_rw`:
when the access mode `flag & O_ACCMODE` does not permit the direction (a write
when the mode is neither `O_WRONLY` nor `O_RDWR`, a read when it is neither
`O_RDONLY` nor `O_RDWR`) the call returns `EINVAL` with the whole state
unchanged, so no storage primitive is invoked and the cursor is untouched; and,
provided the copy-in of a write does not itself report `EINVAL`, the call
returns `EINVAL` without a storage-layer call exactly when the mode does not
permit the direction. -/
theorem sys_rw_access_mode (K : Consts) (s : kstate) (fd buflen : Int) (flag : uio_rw)
    (env : rw_env) (d : file_descriptor) (G : Nat) (of : open_file)
    (h0 : 0 ≤ fd) (h1 : fd < (K.OPEN_MAX : Int))
    (hd : s.fd_array[fd.toNat]? = some d) (huse : d.in_use ≠ 0)
    (hgi : d.global_index = (G : Int)) (hG : G < K.OPEN_MAX)
    (hp : s.files[G]? = some (of_ptr.live of)) :
    (((flag = uio_rw.UIO_WRITE ∧ Int.land of.flag K.O_ACCMODE ≠ K.O_WRONLY
          ∧ Int.land of.flag K.O_ACCMODE ≠ K.O_RDWR)
        ∨ (flag = uio_rw.UIO_READ ∧ Int.land of.flag K.O_ACCMODE ≠ K.O_RDONLY
          ∧ Int.land of.flag K.O_ACCMODE ≠ K.O_RDWR)) →
      sys_rw K s fd buflen flag env = Except.ok (s, K.EINVAL, to_size_t (-1))) ∧
    ((flag = uio_rw.UIO_WRITE → env.copyin ≠ K.EINVAL) →
      (((flag = uio_rw.UIO_WRITE ∧ Int.land of.flag K.O_ACCMODE ≠ K.O_WRONLY
          ∧ Int.land of.flag K.O_ACCMODE ≠ K.O_RDWR)
        ∨ (flag = uio_rw.UIO_READ ∧ Int.land of.flag K.O_ACCMODE ≠ K.O_RDONLY
          ∧ Int.land of.flag K.O_ACCMODE ≠ K.O_RDWR)) ↔
        ∃ (s1 : kstate) (retval : Int),
          sys_rw K s fd buflen flag env = Except.ok (s1, K.EINVAL, retval) ∧
          s1.vfs_log = s.vfs_log)) := by
  have hc := fd_check_valid K s fd d G (of_ptr.live of) h0 h1 hd huse hgi hG hp (by simp)
  have hneg : ¬ ((G : Int) < 0) := by omega
  have hfirst : ((flag = uio_rw.UIO_WRITE ∧ Int.land of.flag K.O_ACCMODE ≠ K.O_WRONLY
          ∧ Int.land of.flag K.O_ACCMODE ≠ K.O_RDWR)
        ∨ (flag = uio_rw.UIO_READ ∧ Int.land of.flag K.O_ACCMODE ≠ K.O_RDONLY
          ∧ Int.land of.flag K.O_ACCMODE ≠ K.O_RDWR)) →
      sys_rw K s fd buflen flag env = Except.ok (s, K.EINVAL, to_size_t (-1)) := by
    intro hden
    unfold sys_rw
    simp only [hc, hneg, if_false, Int.toNat_ofNat, hp]
    rw [if_pos hden]
  refine ⟨hfirst, ?_⟩
  intro hcopy
  constructor
  · intro hden
    exact ⟨s, to_size_t (-1), hfirst hden, rfl⟩
  · rintro ⟨s1, retval, hr, hlog⟩
    by_contra hden
    unfold sys_rw at hr
    simp only [hc, hneg, if_false, Int.toNat_ofNat, hp] at hr
    rw [if_neg hden] at hr
    by_cases hroom : buflen > env.stack_room
    · rw [if_pos hroom] at hr
      simp at hr
    · rw [if_neg hroom] at hr
      by_cases hcp : flag = uio_rw.UIO_WRITE ∧ env.copyin ≠ 0
      · rw [if_pos hcp] at hr
        simp only [Except.ok.injEq, Prod.mk.injEq] at hr
        exact hcopy hcp.1 hr.2.1
      · rw [if_neg hcp] at hr
        by_cases hv : env.vop_result ≠ 0
        · rw [if_pos hv] at hr
          simp only [Except.ok.injEq, Prod.mk.injEq] at hr
          rw [← hr.1] at hlog
          simp [log_call] at hlog
        · rw [if_neg hv] at hr
          simp only [Except.ok.injEq, Prod.mk.injEq] at hr
          exact K.EINVAL_ne hr.2.1.symm

theorem sys_rw_access_mode_witness :
    sys_rw os161 one_file_state 0 12 uio_rw.UIO_WRITE read_env
      = Except.ok (one_file_state, os161.EINVAL, to_size_t (-1)) ∧
    ¬ ∃ (s1 : kstate) (retval : Int),
      sys_rw os161 one_file_state 0 12 uio_rw.UIO_READ read_env
        = Except.ok (s1, os161.EINVAL, retval) ∧
      s1.vfs_log = one_file_state.vfs_log :=
  ⟨(sys_rw_access_mode os161 one_file_state 0 12 uio_rw.UIO_WRITE read_env
      { in_use := 1, global_index := 0 } 0
      { vnode := 7, offset := 0, ref_count := 1, flag := 0 }
      (by decide) (by decide) (by decide) (by decide) rfl (by decide) (by decide)).1
      (Or.inl ⟨rfl, by decide, by decide⟩),
    fun h =>
      absurd
        (((sys_rw_access_mode os161 one_file_state 0 12 uio_rw.UIO_READ read_env
          { in_use := 1, global_index := 0 } 0
          { vnode := 7, offset := 0, ref_count := 1, flag := 0 }
          (by decide) (by decide) (by decide) (by decide) rfl (by decide) (by decide)).2
          (fun hw => absurd hw (by decide))).2 h)
        (by decide)⟩

/-- C18: for a descriptor bound to a live object whose node is not seekable,
`sys_lseek` returns `ESPIPE` with `*retval = -1` for every offset and every
`whence`; the only storage-layer call is `VOP_ISSEEKABLE` (the size is not
queried) and both tables, the cursor included, are unchanged. -/
theorem sys_lseek_not_seekable (K : Consts) (s : kstate) (fd offset whence : Int)
    (env : lseek_env) (d : file_descriptor) (G : Nat) (of : open_file)
    (h0 : 0 ≤ fd) (h1 : fd < (K.OPEN_MAX : Int))
    (hd : s.fd_array[fd.toNat]? = some d) (huse : d.in_use ≠ 0)
    (hgi : d.global_index = (G : Int)) (hG : G < K.OPEN_MAX)
    (hp : s.files[G]? = some (of_ptr.live of)) (hseek : env.seekable = false) :
    sys_lseek K s fd offset whence env = Except.ok
      ({ s with vfs_log := s.vfs_log ++ [vfs_call.VOP_ISSEEKABLE of.vnode] }, K.ESPIPE, -1) := by
  have hc := fd_check_valid K s fd d G (of_ptr.live of) h0 h1 hd huse hgi hG hp (by simp)
  have hne : ¬ ((G : Int) = -1) := by omega
  simp [sys_lseek, hc, hne, hp, hseek, log_call]

theorem sys_lseek_not_seekable_witness :
    sys_lseek os161 one_file_state 0 5 9 pipe_env = Except.ok
      ({ one_file_state with
          vfs_log := one_file_state.vfs_log ++ [vfs_call.VOP_ISSEEKABLE 7] },
        os161.ESPIPE, -1) :=
  sys_lseek_not_seekable os161 one_file_state 0 5 9 pipe_env
    { in_use := 1, global_index := 0 } 0 { vnode := 7, offset := 0, ref_count := 1, flag := 0 }
    (by decide) (by decide) (by decide) (by decide) rfl (by decide) (by decide) rfl

/-- C12 (evaluation at the failing input): the state `neg_seek_state` is
reached from the initialised tables by `open`, `lseek(0, 2^31, SEEK_SET)` and
`lseek(0, 0, SEEK_CUR)`, with no read and no write, and the object in global
slot 0 has the negative offset `-2^31`. -/
theorem negative_offset_reachable :
    neg_seek_script = [syscall.open 0 0 env_ok, syscall.lseek 0 2147483648 os161.SEEK_SET seek_env,
      syscall.lseek 0 0 os161.SEEK_CUR seek_env] ∧
    Reachable os161 neg_seek_state ∧
    neg_seek_state.files[0]? = some (of_ptr.live
      { vnode := 7, offset := -2147483648, ref_count := 1, flag := 0 }) ∧
    (-2147483648 : Int) < 0 :=
  ⟨rfl, run_reachable os161 neg_seek_script _ _ Reachable.init neg_seek_run, by decide,
    by decide⟩

/-! ## `setup_stdout_stderr` -/

/-- One console descriptor: when the console open succeeds, `g` is the lowest
`NULL` global slot and `t` the lowest free descriptor, `setup_console` on
target `t` returns 0 and binds `t` to `g`. -/
theorem setup_console_ok (K : Consts) (s : kstate) (t g : Nat) (env : open_env)
    (e : file_descriptor) (henv : env.vfs_open = 0 ∧ env.of_alloc = true)
    (hgN : g < K.OPEN_MAX) (hg : s.files[g]? = some of_ptr.NULL)
    (hglow : ∀ j, j < g → ∃ p, s.files[j]? = some p ∧ p ≠ of_ptr.NULL)
    (htN : t < K.OPEN_MAX) (ht : s.fd_array[t]? = some e) (he : e.in_use = 0)
    (htlow : ∀ j, j < t → ∃ x, s.fd_array[j]? = some x ∧ x.in_use ≠ 0) :
    setup_console K s (t : Int) env = Except.ok
      ({ fd_array := s.fd_array.set t { in_use := 1, global_index := (g : Int) },
         files := s.files.set g (of_ptr.live
           { vnode := env.vn, offset := 0, ref_count := 1, flag := K.O_WRONLY }),
         vfs_log := s.vfs_log ++ [vfs_call.vfs_open conname K.O_WRONLY 0] }, 0) := by
  have hins := insert_open_file_loop_found s.files
    { vnode := env.vn, offset := 0, ref_count := 1, flag := K.O_WRONLY } g hg K.OPEN_MAX 0
    (Nat.zero_le g) (by omega) (fun j _ hj => hglow j hj)
  have hall := allocate_fd_loop_found s.fd_array (g : Int) t e ht he K.OPEN_MAX 0
    (Nat.zero_le t) (by omega) (fun j _ hj => htlow j hj)
  simp [setup_console, open_console, create_open_file, henv.1, henv.2, init_fd_for_console,
    insert_open_file, log_call, hins, allocate_fd, hall]


theorem lowest_null_le (files : List of_ptr) (N a : Nat) (haN : a < N)
    (ha : files[a]? = some of_ptr.NULL) :
    ∃ g, g ≤ a ∧ g < N ∧ files[g]? = some of_ptr.NULL ∧
      ∀ j, j < g → ∃ p, files[j]? = some p ∧ p ≠ of_ptr.NULL := by
  obtain ⟨g, hgN, hg, hlow⟩ := lowest_null files N ⟨a, haN, ha⟩
  refine ⟨g, ?_, hgN, hg, hlow⟩
  by_contra hlt
  obtain ⟨p, hp, hne⟩ := hlow a (by omega)
  rw [ha] at hp
  simp only [Option.some.injEq] at hp
  exact hne hp.symm

/-- C16: on a freshly initialised descriptor table, with at least three `NULL`
global slots and every console open succeeding, `setup_stdout_stderr` returns
0; afterwards descriptors 0, 1 and 2 are in use and bound to three pairwise
distinct global indices, each holding an object with flag `O_WRONLY`, offset 0
and reference count 1, and every descriptor from 3 on is still free. -/
theorem setup_stdout_stderr_fresh (K : Consts) (s : kstate) (env0 env1 env2 : open_env)
    (hfresh : s.fd_array = List.replicate K.OPEN_MAX { in_use := 0, global_index := -1 })
    (hslots : ∃ a b c, a < b ∧ b < c ∧ c < K.OPEN_MAX ∧ s.files[a]? = some of_ptr.NULL ∧
      s.files[b]? = some of_ptr.NULL ∧ s.files[c]? = some of_ptr.NULL)
    (h0 : env0.vfs_open = 0 ∧ env0.of_alloc = true)
    (h1 : env1.vfs_open = 0 ∧ env1.of_alloc = true)
    (h2 : env2.vfs_open = 0 ∧ env2.of_alloc = true) :
    ∃ (g0 g1 g2 : Nat) (s1 : kstate),
      setup_stdout_stderr K s env0 env1 env2 = Except.ok (s1, 0) ∧
      g0 ≠ g1 ∧ g0 ≠ g2 ∧ g1 ≠ g2 ∧
      g0 < K.OPEN_MAX ∧ g1 < K.OPEN_MAX ∧ g2 < K.OPEN_MAX ∧
      s1.fd_array[0]? = some { in_use := 1, global_index := (g0 : Int) } ∧
      s1.fd_array[1]? = some { in_use := 1, global_index := (g1 : Int) } ∧
      s1.fd_array[2]? = some { in_use := 1, global_index := (g2 : Int) } ∧
      s1.files[g0]? = some (of_ptr.live
        { vnode := env0.vn, offset := 0, ref_count := 1, flag := K.O_WRONLY }) ∧
      s1.files[g1]? = some (of_ptr.live
        { vnode := env1.vn, offset := 0, ref_count := 1, flag := K.O_WRONLY }) ∧
      s1.files[g2]? = some (of_ptr.live
        { vnode := env2.vn, offset := 0, ref_count := 1, flag := K.O_WRONLY }) ∧
      ∀ j, 3 ≤ j → j < K.OPEN_MAX →
        s1.fd_array[j]? = some { in_use := 0, global_index := -1 } := by
  obtain ⟨a, b, c, hab, hbc, hcN, ha, hb, hc⟩ := hslots
  -- first console descriptor
  obtain ⟨g0, hg0a, hg0N, hg0, hlow0⟩ := lowest_null_le s.files K.OPEN_MAX a (by omega) ha
  have hg0l : g0 < s.files.length := (List.getElem?_eq_some.1 hg0).1
  have hfree : ∀ j, j < K.OPEN_MAX →
      s.fd_array[j]? = some { in_use := 0, global_index := -1 } := by
    intro j hj
    rw [hfresh]
    simp [List.getElem?_replicate, hj]
  have hlen : s.fd_array.length = K.OPEN_MAX := by rw [hfresh]; simp
  have hstep0 := setup_console_ok K s 0 g0 env0 _ h0 hg0N hg0 hlow0 (by omega)
    (hfree 0 (by omega)) rfl (fun j hj => absurd hj (Nat.not_lt_zero j))
  -- second console descriptor
  obtain ⟨g1, hg1b, hg1N, hg1, hlow1⟩ := lowest_null_le
    (s.files.set g0 (of_ptr.live
      { vnode := env0.vn, offset := 0, ref_count := 1, flag := K.O_WRONLY }))
    K.OPEN_MAX b (by omega)
    (by rw [List.getElem?_set_ne (by omega)]; exact hb)
  have hg01 : g0 ≠ g1 := by
    intro h
    rw [← h] at hg1
    simp [hg0l] at hg1
  have hg1l : g1 < s.files.length := by
    have := (List.getElem?_eq_some.1 hg1).1
    simpa using this
  have hstep1 := setup_console_ok K
    { fd_array := s.fd_array.set 0 { in_use := 1, global_index := (g0 : Int) },
      files := s.files.set g0 (of_ptr.live
        { vnode := env0.vn, offset := 0, ref_count := 1, flag := K.O_WRONLY }),
      vfs_log := s.vfs_log ++ [vfs_call.vfs_open conname K.O_WRONLY 0] }
    1 g1 env1 { in_use := 0, global_index := -1 } h1 hg1N
    hg1 hlow1 (by omega)
    (by
      show (s.fd_array.set 0 _)[1]? = _
      rw [List.getElem?_set_ne (by omega)]
      exact hfree 1 (by omega))
    rfl
    (by
      intro j hj
      have hj0 : j = 0 := by omega
      subst hj0
      refine ⟨{ in_use := 1, global_index := (g0 : Int) }, ?_, by simp⟩
      show (s.fd_array.set 0 _)[0]? = _
      rw [List.getElem?_set_self (by omega)])
  -- third console descriptor
  obtain ⟨g2, hg2c, hg2N, hg2, hlow2⟩ := lowest_null_le
    ((s.files.set g0 (of_ptr.live
      { vnode := env0.vn, offset := 0, ref_count := 1, flag := K.O_WRONLY })).set g1
      (of_ptr.live { vnode := env1.vn, offset := 0, ref_count := 1, flag := K.O_WRONLY }))
    K.OPEN_MAX c hcN
    (by
      rw [List.getElem?_set_ne (by omega), List.getElem?_set_ne (by omega)]
      exact hc)
  have hg12 : g1 ≠ g2 := by
    intro h
    rw [← h] at hg2
    simp [hg1l] at hg2
  have hg02 : g0 ≠ g2 := by
    intro h
    rw [← h] at hg2
    simp [List.getElem?_set, hg01, Ne.symm hg01, hg0l] at hg2
  have hg2l : g2 < s.files.length := by
    have := (List.getElem?_eq_some.1 hg2).1
    simpa using this
  have hstep2 := setup_console_ok K
    { fd_array := (s.fd_array.set 0 { in_use := 1, global_index := (g0 : Int) }).set 1
        { in_use := 1, global_index := (g1 : Int) },
      files := (s.files.set g0 (of_ptr.live
        { vnode := env0.vn, offset := 0, ref_count := 1, flag := K.O_WRONLY })).set g1
        (of_ptr.live { vnode := env1.vn, offset := 0, ref_count := 1, flag := K.O_WRONLY }),
      vfs_log := s.vfs_log ++ [vfs_call.vfs_open conname K.O_WRONLY 0]
        ++ [vfs_call.vfs_open conname K.O_WRONLY 0] }
    2 g2 env2 { in_use := 0, global_index := -1 } h2 hg2N
    hg2 hlow2 (by omega)
    (by
      show ((s.fd_array.set 0 _).set 1 _)[2]? = _
      rw [List.getElem?_set_ne (by omega), List.getElem?_set_ne (by omega)]
      exact hfree 2 (by omega))
    rfl
    (by
      intro j hj
      rcases Nat.lt_or_ge j 1 with hj1 | hj1
      · have hj0 : j = 0 := by omega
        subst hj0
        refine ⟨{ in_use := 1, global_index := (g0 : Int) }, ?_, by simp⟩
        show ((s.fd_array.set 0 _).set 1 _)[0]? = _
        rw [List.getElem?_set_ne (by omega), List.getElem?_set_self (by omega)]
      · have hj0 : j = 1 := by omega
        subst hj0
        refine ⟨{ in_use := 1, global_index := (g1 : Int) }, ?_, by simp⟩
        show ((s.fd_array.set 0 _).set 1 _)[1]? = _
        rw [List.getElem?_set_self (by simp; omega)])
  refine ⟨g0, g1, g2,
    { fd_array := ((s.fd_array.set 0 { in_use := 1, global_index := (g0 : Int) }).set 1
        { in_use := 1, global_index := (g1 : Int) }).set 2
        { in_use := 1, global_index := (g2 : Int) },
      files := ((s.files.set g0 (of_ptr.live
        { vnode := env0.vn, offset := 0, ref_count := 1, flag := K.O_WRONLY })).set g1
        (of_ptr.live { vnode := env1.vn, offset := 0, ref_count := 1, flag := K.O_WRONLY })).set g2
        (of_ptr.live { vnode := env2.vn, offset := 0, ref_count := 1, flag := K.O_WRONLY }),
      vfs_log := s.vfs_log ++ [vfs_call.vfs_open conname K.O_WRONLY 0]
        ++ [vfs_call.vfs_open conname K.O_WRONLY 0]
        ++ [vfs_call.vfs_open conname K.O_WRONLY 0] },
    ?_, hg01, hg02, hg12, hg0N, hg1N, hg2N, ?_, ?_, ?_, ?_, ?_, ?_, ?_⟩
  · unfold setup_stdout_stderr
    have e0 : STDIN_FILENO = ((0 : Nat) : Int) := rfl
    have e1 : STDOUT_FILENO = ((1 : Nat) : Int) := rfl
    have e2 : STDERR_FILENO = ((2 : Nat) : Int) := rfl
    rw [e0, hstep0]
    simp only [ne_eq, not_true_eq_false, if_false]
    rw [e1, hstep1]
    simp only [ne_eq, not_true_eq_false, if_false]
    rw [e2, hstep2]
    simp only [ne_eq, not_true_eq_false, if_false]
  · simp [List.getElem?_set, hlen]; omega
  · simp [List.getElem?_set, hlen]; omega
  · simp [List.getElem?_set, hlen]; omega
  · simp [List.getElem?_set, hg01, hg02, Ne.symm hg01, Ne.symm hg02, hg0l]
  · simp [List.getElem?_set, hg12, Ne.symm hg12, hg1l]
  · simp [List.getElem?_set, hg2l]
  · intro j hj3 hjN
    show (((s.fd_array.set 0 _).set 1 _).set 2 _)[j]? = _
    rw [List.getElem?_set_ne (by omega), List.getElem?_set_ne (by omega),
      List.getElem?_set_ne (by omega)]
    exact hfree j hjN

theorem setup_stdout_stderr_fresh_witness :
    ∃ (g0 g1 g2 : Nat) (s1 : kstate),
      setup_stdout_stderr os161 (init_state os161) (console_env 4) (console_env 5)
        (console_env 6) = Except.ok (s1, 0) ∧
      g0 ≠ g1 ∧ g0 ≠ g2 ∧ g1 ≠ g2 ∧
      g0 < os161.OPEN_MAX ∧ g1 < os161.OPEN_MAX ∧ g2 < os161.OPEN_MAX ∧
      s1.fd_array[0]? = some { in_use := 1, global_index := (g0 : Int) } ∧
      s1.fd_array[1]? = some { in_use := 1, global_index := (g1 : Int) } ∧
      s1.fd_array[2]? = some { in_use := 1, global_index := (g2 : Int) } ∧
      s1.files[g0]? = some (of_ptr.live
        { vnode := 4, offset := 0, ref_count := 1, flag := os161.O_WRONLY }) ∧
      s1.files[g1]? = some (of_ptr.live
        { vnode := 5, offset := 0, ref_count := 1, flag := os161.O_WRONLY }) ∧
      s1.files[g2]? = some (of_ptr.live
        { vnode := 6, offset := 0, ref_count := 1, flag := os161.O_WRONLY }) ∧
      ∀ j, 3 ≤ j → j < os161.OPEN_MAX →
        s1.fd_array[j]? = some { in_use := 0, global_index := -1 } :=
  setup_stdout_stderr_fresh os161 (init_state os161) (console_env 4) (console_env 5)
    (console_env 6) rfl ⟨0, 1, 2, by decide, by decide, by decide, by decide, by decide,
      by decide⟩ (by decide) (by decide) (by decide)

/-! ## `fd_table_destory` -/

/-- C15 (evaluation at the failing input): the descriptor table of
`second_process_state`, produced by `setup_stdout_stderr` for a process that
starts when global slots 0, 1, 2 are taken, has descriptors 0, 1, 2 bound to
the distinct objects of slots 3, 4, 5, each with reference count 1.
`fd_table_destory` leaves the state as it was: slots 3, 4, 5 still hold their
objects and no `vfs_close` is logged. -/
theorem fd_table_destory_closes_nothing :
    setup_stdout_stderr os161 second_process_start (console_env 4) (console_env 5)
      (console_env 6) = Except.ok (second_process_state, 0) ∧
    second_process_state.fd_array[0]? = some { in_use := 1, global_index := 3 } ∧
    second_process_state.files[3]? = some (of_ptr.live
      { vnode := 4, offset := 0, ref_count := 1, flag := 1 }) ∧
    fd_table_destory os161 second_process_state = Except.ok second_process_state := by
  decide

/-! ## Reference counts after `sys_close` -/

/-- C19 (evaluation at the failing input): in the reachable state
`half_closed_state` descriptors 0 and 1 are bound to global slot 0, whose
object has reference count 1.  `sys_dup2 0 1` validates descriptor 0
(`fd_check` returns 0), closes the bound descriptor 1, which empties slot 0,
and then increments the reference count through the `NULL` slot. -/
theorem sys_dup2_increments_through_null :
    Reachable os161 half_closed_state ∧
    fd_check os161 half_closed_state 0 = Except.ok 0 ∧
    half_closed_state.fd_array[1]? = some { in_use := 1, global_index := 0 } ∧
    (sys_close os161 half_closed_state 1).map (fun r => (r.1.files[0]?, r.2))
      = Except.ok (some of_ptr.NULL, 0) ∧
    sys_dup2 os161 half_closed_state 0 1 = Except.error Fault.null_deref :=
  ⟨run_reachable os161 half_closed_script _ _ Reachable.init half_closed_run, by decide,
    by decide, by decide, by decide⟩

/-- C20 (evaluation at the failing input): `open`, `dup2(0, 1)` and `close(0)`,
run from the initialised tables of one process, all return 0 and lead to
`half_closed_state`, where the object in global slot 0 has reference count 1
while two descriptors in use have global index 0. -/
theorem ref_count_below_bound_descriptors :
    exec os161 (init_state os161) (syscall.open 0 0 env_ok) = Except.ok (one_file_state, 0) ∧
    exec os161 one_file_state (syscall.dup2 0 1) = Except.ok (shared_state, 0) ∧
    exec os161 shared_state (syscall.close 0) = Except.ok (half_closed_state, 0) ∧
    half_closed_state.files[0]? = some (of_ptr.live
      { vnode := 7, offset := 0, ref_count := 1, flag := 0 }) ∧
    bound_count half_closed_state.fd_array 0 = 2 := by
  decide

/-! ## What holds of positions and reference counts -/

theorem to_off_t_of_range (x : Int) (h1 : -2 ^ 63 ≤ x) (h2 : x < 2 ^ 63) : to_off_t x = x := by
  unfold to_off_t
  norm_num at h1 h2 ⊢
  omega

/-- The positions `sys_lseek` accepts, for a macro `KERNEL_ABS` that returns
the magnitude of the given negative offset: on a seekable node, `SEEK_SET`
with a non-negative offset yields that offset; `SEEK_CUR` with a cursor `c`
in `[0, 2^31)` and `SEEK_END` with size `s` yield `c + offset`, respectively
`s + offset`, when that sum lies in `[0, 2^63)`.  The position is returned in
`*retval` and stored as the cursor; nothing else changes in the tables. -/
theorem sys_lseek_accepts (K : Consts) (s : kstate) (fd offset whence position : Int)
    (env : lseek_env) (d : file_descriptor) (G : Nat) (of : open_file)
    (h0 : 0 ≤ fd) (h1 : fd < (K.OPEN_MAX : Int))
    (hd : s.fd_array[fd.toNat]? = some d) (huse : d.in_use ≠ 0)
    (hgi : d.global_index = (G : Int)) (hG : G < K.OPEN_MAX)
    (hp : s.files[G]? = some (of_ptr.live of))
    (hseek : env.seekable = true) (hstat : env.stat_result = 0)
    (habs : offset < 0 → K.KERNEL_ABS offset = -offset)
    (hcase : (whence = K.SEEK_SET ∧ 0 ≤ offset ∧ position = offset) ∨
      (whence = K.SEEK_CUR ∧ 0 ≤ of.offset ∧ of.offset < 2 ^ 31 ∧
        0 ≤ of.offset + offset ∧ of.offset + offset < 2 ^ 63 ∧
        position = of.offset + offset) ∨
      (whence = K.SEEK_END ∧ 0 ≤ env.st_size + offset ∧ env.st_size + offset < 2 ^ 63 ∧
        position = env.st_size + offset)) :
    sys_lseek K s fd offset whence env = Except.ok
      ({ fd_array := s.fd_array,
         files := s.files.set G (of_ptr.live { of with offset := position }),
         vfs_log := s.vfs_log ++
          [vfs_call.VOP_ISSEEKABLE of.vnode, vfs_call.VOP_STAT of.vnode] }, 0, position) := by
  have hc := fd_check_valid K s fd d G (of_ptr.live of) h0 h1 hd huse hgi hG hp (by simp)
  have hne : ¬ ((G : Int) = -1) := by omega
  obtain ⟨d1, d2, d3⟩ := K.seek_distinct
  unfold sys_lseek
  simp only [hc, hne, if_false, Int.toNat_ofNat, hp, hseek, hstat, log_call, ne_eq,
    not_true_eq_false, Bool.true_eq_false, List.append_assoc, List.singleton_append]
  rcases hcase with ⟨hw, ho, hpos⟩ | ⟨hw, hc0, hc1, hs0, hs1, hpos⟩ | ⟨hw, hs0, hs1, hpos⟩
  · have hno : ¬ offset < 0 := by omega
    rw [if_pos hw, if_neg hno, hpos]
  · have hw1 : ¬ whence = K.SEEK_SET := by rw [hw]; exact fun h => d1 h.symm
    have hti : to_int of.offset = of.offset := to_int_of_range _ (by omega) hc1
    have hacc : ¬ (offset < 0 ∧ K.KERNEL_ABS offset > to_int of.offset) := by
      rintro ⟨hneg, hgt⟩
      rw [habs hneg, hti] at hgt
      omega
    have hto : to_off_t (offset + to_int of.offset) = position := by
      rw [hti, hpos, to_off_t_of_range _ (by omega) (by omega)]
      omega
    rw [if_neg hw1, if_pos hw, if_neg hacc, hto]
  · have hw1 : ¬ whence = K.SEEK_SET := by rw [hw]; exact fun h => d2 h.symm
    have hw2 : ¬ whence = K.SEEK_CUR := by rw [hw]; exact fun h => d3 h.symm
    have hacc : ¬ (offset < 0 ∧ K.KERNEL_ABS offset > env.st_size) := by
      rintro ⟨hneg, hgt⟩
      rw [habs hneg] at hgt
      omega
    have hto : to_off_t (offset + env.st_size) = position := by
      rw [hpos, to_off_t_of_range _ (by omega) (by omega)]
      omega
    rw [if_neg hw1, if_neg hw2, if_pos hw, if_neg hacc, hto]

theorem sys_lseek_accepts_witness :
    sys_lseek os161 one_file_state 0 4294967296 os161.SEEK_CUR seek_env = Except.ok
      ({ fd_array := one_file_state.fd_array,
         files := one_file_state.files.set 0
           (of_ptr.live { vnode := 7, offset := 4294967296, ref_count := 1, flag := 0 }),
         vfs_log := one_file_state.vfs_log ++
          [vfs_call.VOP_ISSEEKABLE 7, vfs_call.VOP_STAT 7] }, 0, 4294967296) :=
  sys_lseek_accepts os161 one_file_state 0 4294967296 os161.SEEK_CUR 4294967296 seek_env
    { in_use := 1, global_index := 0 } 0 { vnode := 7, offset := 0, ref_count := 1, flag := 0 }
    (by decide) (by decide) (by decide) (by decide) rfl (by decide) (by decide) rfl rfl
    (fun h => absurd h (by decide))
    (Or.inr (Or.inl ⟨rfl, by decide, by decide, by decide, by decide, by decide⟩))

/-- In every reachable state, every live object of the global table has a
reference count of at least 1 and, unless it is 1, of at most the number of
descriptors in use that are bound to its slot. -/
theorem reachable_counts_ok (K : Consts) (hK : K.OPEN_MAX + 1 < 2 ^ 31) (s : kstate)
    (h : Reachable K s) (g : Nat) (of : open_file)
    (hp : s.files[g]? = some (of_ptr.live of)) :
    1 ≤ of.ref_count ∧
      (of.ref_count ≤ 1 ∨ of.ref_count ≤ (bound_count s.fd_array g : Int)) :=
  (reachable_inv K hK s h).2 g of hp

theorem reachable_counts_ok_witness :
    (1 : Int) ≤ 128 ∧ ((128 : Int) ≤ 1 ∨ (128 : Int) ≤ (bound_count full_state.fd_array 0 : Int)) :=
  reachable_counts_ok os161 (by decide) full_state
    (run_reachable os161 fill_script _ _ Reachable.init full_state_run) 0
    { vnode := 7, offset := 0, ref_count := 128, flag := 0 } (by decide)

end OsAss2
